import Mathlib

/-!
Verification of the reconciliation pattern of the terraform-provider-wallix-bastion
repository: a shallow embedding of the resource files

  - bastion/resource_application.go
  - bastion/resource_device_localdomain_account_credential.go
  - bastion/resource_externalauth_ldap.go
  - the localpasswordpolicy data-source file

and proofs about the Codec (prepare/fill), Locator (search), Reconciler
(Create/Read/Update/Delete/Import) and Version Gate functions they define.

Modelling conventions:

  - Terraform attribute state (`*schema.ResourceData`) is embedded as one typed
    structure per resource (`AppState`, `CredState`, `LdapState`, `PolicyState`);
    `d.Get("x").(T)` becomes a typed field read wherever the Go dynamic type and
    the asserted type agree by the schema.  The one place where they do not
    (`prepareApplicationJSON`'s `[]interface{}` assertion on a `*schema.Set`) is
    modelled through the dynamic value type `TFValue`, so the assertion failure
    falls out of the general assertion semantics.
  - `Client.newRequest` (the Transport collaborator, defined outside the files
    above) consumes the next queued appliance response and records the request
    it sent; response bodies are modelled as already-decoded JSON values
    (`RespBody`), and `json.Unmarshal` into a given Go type as a projection that
    fails when the body is not of that shape.
  - Go `error` values are the inductive `Err`; a `fmt.Errorf` message keeps its
    format string and its interpolated data.
  - A Go run-time panic (a failing type assertion, a nil-pointer dereference) is
    the `panicked` outcome: the process aborts, its partial writes unobservable.
-/

namespace Wallix

/-- Modelled from the spec: the constant `versionValidate3_3` is defined in the
repository's client code, outside the embedded files; it is the single API
version string that the 3.3-validated resources accept (spec, Version Gate). -/
def versionValidate3_3 : String := "v3.3"

/-- Modelled from the spec: `defaultVersionsValid()` is defined in the
repository's client code, outside the embedded files; it is the list of API
versions the data sources accept (spec, Version Gate). -/
def defaultVersionsValid : List String := ["v3.3", "v3.6"]

/-- Go `bchk.InSlice` (package go-utils/basiccheck): slice membership. -/
def inSlice (x : String) (l : List String) : Bool := l.contains x

/-- Character-list core of Go `strings.Split` on a one-character separator:
splits around every occurrence, keeping empty segments; the empty input yields
one empty segment. -/
def splitOnChar (sep : Char) : List Char → List (List Char)
  | [] => [[]]
  | c :: rest =>
    if c = sep then [] :: splitOnChar sep rest
    else
      match splitOnChar sep rest with
      | [] => [[c]]
      | w :: ws => (c :: w) :: ws

/-- Go `strings.Split(s, sep)` for a one-character separator `sep`. -/
def stringsSplit (s : String) (sep : Char) : List String :=
  (splitOnChar sep s.data).map (fun w => ⟨w⟩)

/-- The provider client handle (`*Client`): the embedded code reads only its
`bastionAPIVersion` field. -/
structure Client where
  bastionAPIVersion : String

/-- Go struct `jsonApplicationPath` of resource_application.go. -/
structure jsonApplicationPath where
  Target : String
  Program : String
  WorkingDir : String
deriving DecidableEq, Repr

/-- Modelled from the spec: Go struct `jsonApplicationLocalDomain` is defined in
the application local-domain resource file, which is outside the embedded
files.  Its fields are exactly those read by `fillApplication`; the
plugin-parameter payload is opaque to the provider and is modelled in its
canonical string form (spec, Codec: nested dynamic-shaped fields are preserved
by re-serializing them to a canonical string form). -/
structure jsonApplicationLocalDomain where
  ID : String
  AdminAccount : String
  DomainName : String
  Description : String
  EnablePasswordChange : Bool
  PasswordChangePolicy : String
  PasswordChangePlugin : String
  PasswordChangePluginParameters : String
deriving DecidableEq, Repr

/-- Go struct `jsonApplication` of resource_application.go.  `LocalDomains` is a
`*[]jsonApplicationLocalDomain` pointer: `none` is the nil pointer (field absent
from the JSON). -/
structure jsonApplication where
  ID : String
  ApplicationName : String
  ConnectionPolicy : String
  Description : String
  Parameters : String
  Target : String
  GlobalDomains : List String
  Paths : List jsonApplicationPath
  LocalDomains : Option (List jsonApplicationLocalDomain)
deriving DecidableEq, Repr

/-- Go zero value `var result jsonApplication`: empty strings, nil slices, nil
pointer. -/
def jsonApplicationZero : jsonApplication :=
  { ID := "", ApplicationName := "", ConnectionPolicy := "", Description := ""
    Parameters := "", Target := "", GlobalDomains := [], Paths := []
    LocalDomains := none }

/-- Go struct `jsonDeviceLocalDomainAccountCredential`.  The Go field `Type`
(json tag "type") is named `Typ` because `Type` is reserved in Lean. -/
structure jsonDeviceLocalDomainAccountCredential where
  ID : String
  Typ : String
  Password : String
  PrivateKey : String
  PublicKey : String
  Passphrase : String
deriving DecidableEq, Repr

/-- Go zero value of `jsonDeviceLocalDomainAccountCredential`. -/
def jsonCredentialZero : jsonDeviceLocalDomainAccountCredential :=
  { ID := "", Typ := "", Password := "", PrivateKey := "", PublicKey := ""
    Passphrase := "" }

/-- Modelled from the spec: Go struct `jsonDevice` lives in the device resource
file, outside the embedded files; the embedded credential Create reads only its
`ID` field. -/
structure jsonDevice where
  ID : String

/-- Modelled from the spec: Go struct `jsonDeviceLocalDomain` lives outside the
embedded files; the embedded credential Create reads only its `ID` field. -/
structure jsonDeviceLocalDomain where
  ID : String

/-- Modelled from the spec: Go struct `jsonDeviceLocalDomainAccount` lives
outside the embedded files; the embedded credential Create reads only its `ID`
field. -/
structure jsonDeviceLocalDomainAccount where
  ID : String

/-- Go struct `jsonExternalAuthLdap` of resource_externalauth_ldap.go.  The Go
field `Type` (json tag "type") is named `Typ`. -/
structure jsonExternalAuthLdap where
  IsActiveDirectory : Bool
  IsAnonymousAccess : Bool
  IsProtectedUser : Bool
  IsSSL : Bool
  IsStartTLS : Bool
  UsePrimaryAuthDomain : Bool
  Port : Int
  Timeout : Float
  ID : String
  AuthenticationName : String
  CACertificate : String
  Certificate : String
  CNAttribute : String
  Description : String
  LDAPBase : String
  Login : String
  LoginAttribute : String
  Host : String
  Password : String
  PrivateKey : String
  Typ : String

/-- Go zero value of `jsonExternalAuthLdap`. -/
def jsonExternalAuthLdapZero : jsonExternalAuthLdap :=
  { IsActiveDirectory := false, IsAnonymousAccess := false
    IsProtectedUser := false, IsSSL := false, IsStartTLS := false
    UsePrimaryAuthDomain := false, Port := 0, Timeout := 0.0, ID := ""
    AuthenticationName := "", CACertificate := "", Certificate := ""
    CNAttribute := "", Description := "", LDAPBase := "", Login := ""
    LoginAttribute := "", Host := "", Password := "", PrivateKey := ""
    Typ := "" }

/-- Go struct `jsonLocalpasswordpolicy` of the localpasswordpolicy data-source
file. -/
structure jsonLocalpasswordpolicy where
  AllowSameUserAndPassword : Bool
  ID : String
  PasswordPolicyName : String
  PasswordExpiration : Int
  PasswordWarningDays : Int
  PasswordMinLength : Int
  PasswordMinLowerChars : Int
  PasswordMinUpperChars : Int
  PasswordMinDigitChars : Int
  PasswordMinSpecialChars : Int
  LastPasswordsToReject : Int
  MaxAuthFailures : Int
  SSHRsaMinLength : Int
  ForbiddenPasswords : List String
  SSHKeyAlgosAllowed : List String
deriving DecidableEq, Repr

/-- A JSON body sent with a request: the wire records the embedded code POSTs
and PUTs. -/
inductive WireBody where
  | app : jsonApplication → WireBody
  | cred : jsonDeviceLocalDomainAccountCredential → WireBody
  | ldap : jsonExternalAuthLdap → WireBody

/-- One transport invocation (`Client.newRequest` call): path, HTTP method and
optional JSON body. -/
structure Request where
  path : String
  method : String
  body : Option WireBody

/-- An appliance response body, modelled as the already-decoded JSON value;
`raw` stands for text of no recognised shape (unmarshalling into any of the
typed shapes fails on it). -/
inductive RespBody where
  | raw : String → RespBody
  | apps : List jsonApplication → RespBody
  | appRec : jsonApplication → RespBody
  | creds : List jsonDeviceLocalDomainAccountCredential → RespBody
  | credRec : jsonDeviceLocalDomainAccountCredential → RespBody
  | ldaps : List jsonExternalAuthLdap → RespBody
  | ldapRec : jsonExternalAuthLdap → RespBody
  | policies : List jsonLocalpasswordpolicy → RespBody
  | deviceRec : jsonDevice → RespBody
  | domainRec : jsonDeviceLocalDomain → RespBody
  | accountRec : jsonDeviceLocalDomainAccount → RespBody

/-- What one `newRequest` call returns in Go: `(body, statusCode, err)`. -/
structure Resp where
  body : RespBody
  code : Nat
  err : Option String

/-- The transport state: the appliance's queued responses (consumed in order)
and the requests issued so far (in order). -/
structure Net where
  replies : List Resp
  sent : List Request

/-- Go `Client.newRequest` (the Transport collaborator, defined outside the
embedded files): performs the call and returns `(body, code, err)`.  Modelled
as serving the next queued response and recording the request; an exhausted
queue is a transport error. -/
def newRequest (path method : String) (body : Option WireBody) (net : Net) :
    Resp × Net :=
  match net.replies with
  | [] => (⟨RespBody.raw "", 0, some "transport failure"⟩,
           ⟨[], net.sent ++ [⟨path, method, body⟩]⟩)
  | r :: rest => (r, ⟨rest, net.sent ++ [⟨path, method, body⟩]⟩)

/-- A Go `error` value.  `fmt.Errorf` messages keep their format string and
interpolated data: `apiStatus` carries the format prefix, the status code and
the raw response body it embeds; `transport` propagates a transport error
verbatim; `unmarshal` wraps a JSON decode failure; `msg` is a fully formatted
message string. -/
inductive Err where
  | transport : String → Err
  | apiStatus : String → Nat → RespBody → Err
  | unmarshal : String → Err
  | msg : String → Err

/-- What a Go helper returning `(α, error)` produces: a value, an error, or a
run-time panic that aborts the process. -/
inductive GoResult (α : Type) where
  | ok : α → GoResult α
  | err : Err → GoResult α
  | panicked : GoResult α

/-- How one Reconciler entry point ends: no diagnostics, error diagnostics
(`diag.FromErr` / a non-nil `error` return), or a run-time panic. -/
inductive Status where
  | ok : Status
  | fail : Err → Status
  | panicked : Status

/-- The outcome of one Reconciler entry point: its status, the local state at
return (unspecified observation when panicked: the process aborted), and the
transport state. -/
structure OpResult (σ : Type) where
  status : Status
  state : σ
  net : Net

/-- Go `json.Unmarshal(body, &results)` with `results []jsonApplication`. -/
def unmarshalApplicationList : RespBody → Except String (List jsonApplication)
  | RespBody.apps l => Except.ok l
  | _ => Except.error "json: cannot unmarshal"

/-- Go `json.Unmarshal(body, &result)` with `result jsonApplication`. -/
def unmarshalApplication : RespBody → Except String jsonApplication
  | RespBody.appRec v => Except.ok v
  | _ => Except.error "json: cannot unmarshal"

/-- Go `json.Unmarshal` into `[]jsonDeviceLocalDomainAccountCredential`. -/
def unmarshalCredentialList :
    RespBody → Except String (List jsonDeviceLocalDomainAccountCredential)
  | RespBody.creds l => Except.ok l
  | _ => Except.error "json: cannot unmarshal"

/-- Go `json.Unmarshal` into `jsonDeviceLocalDomainAccountCredential`. -/
def unmarshalCredential :
    RespBody → Except String jsonDeviceLocalDomainAccountCredential
  | RespBody.credRec v => Except.ok v
  | _ => Except.error "json: cannot unmarshal"

/-- Go `json.Unmarshal` into `[]jsonExternalAuthLdap`. -/
def unmarshalLdapList : RespBody → Except String (List jsonExternalAuthLdap)
  | RespBody.ldaps l => Except.ok l
  | _ => Except.error "json: cannot unmarshal"

/-- Go `json.Unmarshal` into `jsonExternalAuthLdap`. -/
def unmarshalLdap : RespBody → Except String jsonExternalAuthLdap
  | RespBody.ldapRec v => Except.ok v
  | _ => Except.error "json: cannot unmarshal"

/-- Go `json.Unmarshal` into `[]jsonLocalpasswordpolicy`. -/
def unmarshalPolicyList : RespBody → Except String (List jsonLocalpasswordpolicy)
  | RespBody.policies l => Except.ok l
  | _ => Except.error "json: cannot unmarshal"

/-- One element of the application resource's `paths` set attribute. -/
structure AppPath where
  target : String
  program : String
  working_dir : String
deriving DecidableEq, Repr

/-- One element of the application resource's computed `local_domains` list
attribute. -/
structure AppLocalDomain where
  id : String
  admin_account : String
  domain_name : String
  description : String
  enable_password_change : Bool
  password_change_policy : String
  password_change_plugin : String
  password_change_plugin_parameters : String
deriving DecidableEq, Repr

/-- The Terraform local state of the wallix-bastion_application resource: its
`schema.ResourceData`, typed by the resource's schema.  `id` is `d.Id()`; the
`TypeSet` attributes `paths` and `global_domains` are carried as their
`(*schema.Set).List()` element lists. -/
structure AppState where
  id : String
  application_name : String
  connection_policy : String
  paths : List AppPath
  target : String
  description : String
  global_domains : List String
  parameters : String
  local_domains : List AppLocalDomain
deriving DecidableEq, Repr

/-- A dynamic attribute value as `schema.ResourceData.Get` hands it to Go code
(an `interface{}`): only the shapes the embedded code asserts on are needed.
`set` is a `*schema.Set`, `list` a `[]interface{}` Go slice. -/
inductive TFValue where
  | str : String → TFValue
  | set : List TFValue → TFValue
  | list : List TFValue → TFValue

/-- Go type assertion `v.(*schema.Set)` followed by `.List()`: succeeds only on
a set value. -/
def TFValue.setList : TFValue → Option (List TFValue)
  | TFValue.set l => some l
  | _ => none

/-- Go type assertion `v.([]interface{})`: succeeds only on a Go slice value,
not on a `*schema.Set`. -/
def TFValue.asSlice : TFValue → Option (List TFValue)
  | TFValue.list l => some l
  | _ => none

/-- Go type assertion `v.(string)`. -/
def TFValue.asString : TFValue → Option String
  | TFValue.str s => some s
  | _ => none

/-- Go `d.Get("global_domains")` on the application resource: per the SDK, a
`TypeSet` attribute comes back as a `*schema.Set` over its elements. -/
def AppState.getGlobalDomains (d : AppState) : TFValue :=
  TFValue.set (d.global_domains.map TFValue.str)

/-- Modelled from the spec: the opaque plugin-parameter payload is preserved by
re-serializing it to a canonical string form (spec, Codec); the payload is
carried in that canonical string form already, so `json.Marshal` on it is the
identity. -/
def jsonMarshalPluginParameters (payload : String) : String := payload

/-- Go `resourceApplicationVersionCheck`. -/
def resourceApplicationVersionCheck (version : String) : Option Err :=
  if version = versionValidate3_3 then none
  else some (Err.msg
    ("resource wallix-bastion_application not validate with api version " ++ version))

/-- Go `prepareApplicationJSON`.  The required and optional scalar attributes
and the `paths` set elements are read through type assertions that match their
schema types, so they are typed field reads here.  For `global_domains` the
code measures `d.Get("global_domains").(*schema.Set).List()` and then, inside
the loop, asserts the same `d.Get` value to `[]interface{}`; `d.Get` returns a
`*schema.Set` for a `TypeSet` attribute, so that assertion fails and Go panics
(`none`) whenever the branch is taken, i.e. whenever the set is non-empty. -/
def prepareApplicationJSON (d : AppState) : Option jsonApplication :=
  let jsonData : jsonApplication :=
    { ID := ""
      ApplicationName := d.application_name
      ConnectionPolicy := d.connection_policy
      Description := d.description
      Parameters := d.parameters
      Target := d.target
      GlobalDomains := []
      Paths := d.paths.map (fun p =>
        { Target := p.target, Program := p.program, WorkingDir := p.working_dir })
      LocalDomains := none }
  match (d.getGlobalDomains).setList with
  | none => none
  | some elems =>
    if elems.length > 0 then
      match (d.getGlobalDomains).asSlice with
      | none => none
      | some slice =>
        match slice.mapM TFValue.asString with
        | none => none
        | some gds => some { jsonData with GlobalDomains := gds }
    else
      some { jsonData with GlobalDomains := [] }

/-- Go `fillApplication`: writes the response's fields back into local state
through `d.Set` in source order.  `*jsonData.LocalDomains` dereferences the
`LocalDomains` pointer, a run-time panic when the field was absent from the
response (nil pointer), modelled by `none` (the aborted call's partial writes
are unobservable). -/
def fillApplication (d : AppState) (jsonData : jsonApplication) :
    Option AppState :=
  let d :=
    { d with
      application_name := jsonData.ApplicationName
      connection_policy := jsonData.ConnectionPolicy
      paths := jsonData.Paths.map (fun (v : jsonApplicationPath) =>
        { target := v.Target, program := v.Program, working_dir := v.WorkingDir })
      target := jsonData.Target
      description := jsonData.Description
      global_domains := jsonData.GlobalDomains
      parameters := jsonData.Parameters }
  match jsonData.LocalDomains with
  | none => none
  | some lds =>
    some { d with
      local_domains := lds.map (fun (v : jsonApplicationLocalDomain) =>
        { id := v.ID
          admin_account := v.AdminAccount
          domain_name := v.DomainName
          description := v.Description
          enable_password_change := v.EnablePasswordChange
          password_change_policy := v.PasswordChangePolicy
          password_change_plugin := v.PasswordChangePlugin
          password_change_plugin_parameters :=
            jsonMarshalPluginParameters v.PasswordChangePluginParameters }) }

/-- Go `searchResourceApplication`: the application Locator.  Lists all
applications and scans for the first exact `application_name` match; zero
matches is `(_, false)` with no error. -/
def searchResourceApplication (applicationName : String) (net : Net) :
    GoResult (String × Bool) × Net :=
  let (resp, net) :=
    newRequest "/applications/?fields=application_name,id&limit=-1" "GET" none net
  match resp.err with
  | some e => (GoResult.err (Err.transport e), net)
  | none =>
    if resp.code ≠ 200 then
      (GoResult.err (Err.apiStatus "api doesn't return OK : " resp.code resp.body), net)
    else
      match unmarshalApplicationList resp.body with
      | Except.error e =>
        (GoResult.err (Err.unmarshal ("json.Unmarshal failed : " ++ e)), net)
      | Except.ok results =>
        match results.find? (fun v => v.ApplicationName == applicationName) with
        | some v => (GoResult.ok (v.ID, true), net)
        | none => (GoResult.ok ("", false), net)

/-- Go `addApplication`: encode local state and POST it to the collection
endpoint; 200 and 204 are success. -/
def addApplication (d : AppState) (net : Net) : GoResult Unit × Net :=
  match prepareApplicationJSON d with
  | none => (GoResult.panicked, net)
  | some jsonData =>
    let (resp, net) :=
      newRequest "/applications/" "POST" (some (WireBody.app jsonData)) net
    match resp.err with
    | some e => (GoResult.err (Err.transport e), net)
    | none =>
      if resp.code ≠ 200 ∧ resp.code ≠ 204 then
        (GoResult.err
          (Err.apiStatus "api doesn't return OK or NoContent : " resp.code resp.body),
         net)
      else (GoResult.ok (), net)

/-- Go `updateApplication`: encode local state and PUT it to the item
endpoint. -/
def updateApplication (d : AppState) (net : Net) : GoResult Unit × Net :=
  match prepareApplicationJSON d with
  | none => (GoResult.panicked, net)
  | some jsonData =>
    let (resp, net) :=
      newRequest ("/applications/" ++ d.id ++ "?force=true") "PUT"
        (some (WireBody.app jsonData)) net
    match resp.err with
    | some e => (GoResult.err (Err.transport e), net)
    | none =>
      if resp.code ≠ 200 ∧ resp.code ≠ 204 then
        (GoResult.err
          (Err.apiStatus "api doesn't return OK or NoContent : " resp.code resp.body),
         net)
      else (GoResult.ok (), net)

/-- Go `deleteApplication`: DELETE the item endpoint. -/
def deleteApplication (d : AppState) (net : Net) : GoResult Unit × Net :=
  let (resp, net) := newRequest ("/applications/" ++ d.id) "DELETE" none net
  match resp.err with
  | some e => (GoResult.err (Err.transport e), net)
  | none =>
    if resp.code ≠ 200 ∧ resp.code ≠ 204 then
      (GoResult.err
        (Err.apiStatus "api doesn't return OK or NoContent : " resp.code resp.body),
       net)
    else (GoResult.ok (), net)

/-- Go `readApplicationOptions`: GET by id; 404 yields the zero record with no
error, any other non-200 status is a fatal error carrying the status and body,
200 decodes the record. -/
def readApplicationOptions (applicationID : String) (net : Net) :
    GoResult jsonApplication × Net :=
  let (resp, net) := newRequest ("/applications/" ++ applicationID) "GET" none net
  match resp.err with
  | some e => (GoResult.err (Err.transport e), net)
  | none =>
    if resp.code = 404 then (GoResult.ok jsonApplicationZero, net)
    else if resp.code ≠ 200 then
      (GoResult.err (Err.apiStatus "api doesn't return OK : " resp.code resp.body), net)
    else
      match unmarshalApplication resp.body with
      | Except.error e =>
        (GoResult.err (Err.unmarshal ("json.Unmarshal failed : " ++ e)), net)
      | Except.ok result => (GoResult.ok result, net)

/-- Go `resourceApplicationRead`. -/
def resourceApplicationRead (c : Client) (d : AppState) (net : Net) :
    OpResult AppState :=
  match resourceApplicationVersionCheck c.bastionAPIVersion with
  | some e => ⟨Status.fail e, d, net⟩
  | none =>
    match readApplicationOptions d.id net with
    | (GoResult.err e, net) => ⟨Status.fail e, d, net⟩
    | (GoResult.panicked, net) => ⟨Status.panicked, d, net⟩
    | (GoResult.ok cfg, net) =>
      if cfg.ID = "" then ⟨Status.ok, { d with id := "" }, net⟩
      else
        match fillApplication d cfg with
        | none => ⟨Status.panicked, d, net⟩
        | some d => ⟨Status.ok, d, net⟩

/-- Go `resourceApplicationCreate`: duplicate-identity precondition through the
Locator, POST, post-create Locator re-check, then Read. -/
def resourceApplicationCreate (c : Client) (d : AppState) (net : Net) :
    OpResult AppState :=
  match resourceApplicationVersionCheck c.bastionAPIVersion with
  | some e => ⟨Status.fail e, d, net⟩
  | none =>
    match searchResourceApplication d.application_name net with
    | (GoResult.err e, net) => ⟨Status.fail e, d, net⟩
    | (GoResult.panicked, net) => ⟨Status.panicked, d, net⟩
    | (GoResult.ok (_, ex), net) =>
      if ex then
        ⟨Status.fail (Err.msg
          ("application_name " ++ d.application_name ++ " already exists")), d, net⟩
      else
        match addApplication d net with
        | (GoResult.err e, net) => ⟨Status.fail e, d, net⟩
        | (GoResult.panicked, net) => ⟨Status.panicked, d, net⟩
        | (GoResult.ok _, net) =>
          match searchResourceApplication d.application_name net with
          | (GoResult.err e, net) => ⟨Status.fail e, d, net⟩
          | (GoResult.panicked, net) => ⟨Status.panicked, d, net⟩
          | (GoResult.ok (id, ex), net) =>
            if ex = false then
              ⟨Status.fail (Err.msg
                ("application_name " ++ d.application_name ++ " can't find after POST")),
               d, net⟩
            else
              resourceApplicationRead c { d with id := id } net

/-- Go `resourceApplicationUpdate` (`d.Partial` toggles the SDK's partial-state
mode and has no observable effect here). -/
def resourceApplicationUpdate (c : Client) (d : AppState) (net : Net) :
    OpResult AppState :=
  match resourceApplicationVersionCheck c.bastionAPIVersion with
  | some e => ⟨Status.fail e, d, net⟩
  | none =>
    match updateApplication d net with
    | (GoResult.err e, net) => ⟨Status.fail e, d, net⟩
    | (GoResult.panicked, net) => ⟨Status.panicked, d, net⟩
    | (GoResult.ok _, net) => resourceApplicationRead c d net

/-- Go `resourceApplicationDelete`. -/
def resourceApplicationDelete (c : Client) (d : AppState) (net : Net) :
    OpResult AppState :=
  match resourceApplicationVersionCheck c.bastionAPIVersion with
  | some e => ⟨Status.fail e, d, net⟩
  | none =>
    match deleteApplication d net with
    | (GoResult.err e, net) => ⟨Status.fail e, d, net⟩
    | (GoResult.panicked, net) => ⟨Status.panicked, d, net⟩
    | (GoResult.ok _, net) => ⟨Status.ok, d, net⟩

/-- Go `resourceApplicationImport`: the import id is the application name; it
is resolved through the Locator, the record is read and decoded, then the id
is bound. -/
def resourceApplicationImport (c : Client) (d : AppState) (net : Net) :
    OpResult AppState :=
  match resourceApplicationVersionCheck c.bastionAPIVersion with
  | some e => ⟨Status.fail e, d, net⟩
  | none =>
    match searchResourceApplication d.id net with
    | (GoResult.err e, net) => ⟨Status.fail e, d, net⟩
    | (GoResult.panicked, net) => ⟨Status.panicked, d, net⟩
    | (GoResult.ok (id, ex), net) =>
      if ex = false then
        ⟨Status.fail (Err.msg
          ("don't find application_name with id " ++ d.id ++
           " (id must be <application_name>")), d, net⟩
      else
        match readApplicationOptions id net with
        | (GoResult.err e, net) => ⟨Status.fail e, d, net⟩
        | (GoResult.panicked, net) => ⟨Status.panicked, d, net⟩
        | (GoResult.ok cfg, net) =>
          match fillApplication d cfg with
          | none => ⟨Status.panicked, d, net⟩
          | some d => ⟨Status.ok, { d with id := id }, net⟩

/-- The Terraform local state of the
wallix-bastion_device_localdomain_account_credential resource.  The schema
attribute `type` is named `typ` because `type` is reserved in Lean;
`public_key` is the only computed attribute. -/
structure CredState where
  id : String
  device_id : String
  domain_id : String
  account_id : String
  typ : String
  passphrase : String
  password : String
  private_key : String
  public_key : String
deriving DecidableEq, Repr

/-- Go `resourveDeviceLocalDomainAccountCredentialVersionCheck` (the function
name's spelling follows the source). -/
def resourveDeviceLocalDomainAccountCredentialVersionCheck (version : String) :
    Option Err :=
  if version = versionValidate3_3 then none
  else some (Err.msg
    ("resource wallix-bastion_device_localdomain not validate with api version " ++
     version))

/-- Modelled from the spec: Go `readDeviceOptions` is defined in the device
resource file, outside the embedded files.  Per the spec's Read transition it
GETs the device by id, maps 404 to the zero record without error, any other
non-200 status to a fatal error carrying status and body, and decodes the
record on 200. -/
def readDeviceOptions (deviceID : String) (net : Net) :
    GoResult jsonDevice × Net :=
  let (resp, net) := newRequest ("/devices/" ++ deviceID) "GET" none net
  match resp.err with
  | some e => (GoResult.err (Err.transport e), net)
  | none =>
    if resp.code = 404 then (GoResult.ok ⟨""⟩, net)
    else if resp.code ≠ 200 then
      (GoResult.err (Err.apiStatus "api doesn't return OK : " resp.code resp.body), net)
    else
      match resp.body with
      | RespBody.deviceRec v => (GoResult.ok v, net)
      | _ => (GoResult.err (Err.unmarshal "json: cannot unmarshal"), net)

/-- Modelled from the spec: Go `readDeviceLocalDomainOptions` is defined in the
device local-domain resource file, outside the embedded files; same Read
semantics as `readDeviceOptions`, on the nested local-domain endpoint. -/
def readDeviceLocalDomainOptions (deviceID localDomainID : String) (net : Net) :
    GoResult jsonDeviceLocalDomain × Net :=
  let (resp, net) :=
    newRequest ("/devices/" ++ deviceID ++ "/localdomains/" ++ localDomainID)
      "GET" none net
  match resp.err with
  | some e => (GoResult.err (Err.transport e), net)
  | none =>
    if resp.code = 404 then (GoResult.ok ⟨""⟩, net)
    else if resp.code ≠ 200 then
      (GoResult.err (Err.apiStatus "api doesn't return OK : " resp.code resp.body), net)
    else
      match resp.body with
      | RespBody.domainRec v => (GoResult.ok v, net)
      | _ => (GoResult.err (Err.unmarshal "json: cannot unmarshal"), net)

/-- Modelled from the spec: Go `readDeviceLocalDomainAccountOptions` is defined
in the device local-domain account resource file, outside the embedded files;
same Read semantics, on the nested account endpoint. -/
def readDeviceLocalDomainAccountOptions
    (deviceID localDomainID accountID : String) (net : Net) :
    GoResult jsonDeviceLocalDomainAccount × Net :=
  let (resp, net) :=
    newRequest ("/devices/" ++ deviceID ++ "/localdomains/" ++ localDomainID ++
      "/accounts/" ++ accountID) "GET" none net
  match resp.err with
  | some e => (GoResult.err (Err.transport e), net)
  | none =>
    if resp.code = 404 then (GoResult.ok ⟨""⟩, net)
    else if resp.code ≠ 200 then
      (GoResult.err (Err.apiStatus "api doesn't return OK : " resp.code resp.body), net)
    else
      match resp.body with
      | RespBody.accountRec v => (GoResult.ok v, net)
      | _ => (GoResult.err (Err.unmarshal "json: cannot unmarshal"), net)

/-- Go `searchResourceDeviceLocalDomainAccountCredential`: the credential
Locator.  Lists the account's credentials and scans for the first whose `type`
matches the requested leaf discriminant. -/
def searchResourceDeviceLocalDomainAccountCredential
    (deviceID domainID accountID typeCred : String) (net : Net) :
    GoResult (String × Bool) × Net :=
  let (resp, net) :=
    newRequest ("/devices/" ++ deviceID ++ "/localdomains/" ++ domainID ++
      "/accounts/" ++ accountID ++ "/credentials/") "GET" none net
  match resp.err with
  | some e => (GoResult.err (Err.transport e), net)
  | none =>
    if resp.code ≠ 200 then
      (GoResult.err (Err.apiStatus "api return not OK : " resp.code resp.body), net)
    else
      match unmarshalCredentialList resp.body with
      | Except.error e => (GoResult.err (Err.unmarshal e), net)
      | Except.ok results =>
        match results.find? (fun v => v.Typ == typeCred) with
        | some v => (GoResult.ok (v.ID, true), net)
        | none => (GoResult.ok ("", false), net)

/-- Go `prepareDeviceLocalDomainAccountCredentialJSON`: the secret fields are
copied into the wire record only for the matching credential type, and for an
existing ssh_key credential a locally held `private_key` beginning with the
`generate:` sentinel is not resent. -/
def prepareDeviceLocalDomainAccountCredentialJSON
    (d : CredState) (newResource : Bool) :
    jsonDeviceLocalDomainAccountCredential :=
  let json := { jsonCredentialZero with Typ := d.typ }
  if json.Typ = "password" then
    { json with Password := d.password }
  else if json.Typ = "ssh_key" then
    if newResource ∨ ¬ (d.private_key.startsWith "generate:") then
      { json with PrivateKey := d.private_key, Passphrase := d.passphrase }
    else json
  else json

/-- Go `addDeviceLocalDomainAccountCredential`: POST the encoded credential to
the account's credential collection. -/
def addDeviceLocalDomainAccountCredential (d : CredState) (net : Net) :
    GoResult Unit × Net :=
  let json := prepareDeviceLocalDomainAccountCredentialJSON d true
  let (resp, net) :=
    newRequest ("/devices/" ++ d.device_id ++ "/localdomains/" ++ d.domain_id ++
      "/accounts/" ++ d.account_id ++ "/credentials/") "POST"
      (some (WireBody.cred json)) net
  match resp.err with
  | some e => (GoResult.err (Err.transport e), net)
  | none =>
    if resp.code ≠ 200 ∧ resp.code ≠ 204 then
      (GoResult.err
        (Err.apiStatus "api return not OK or NoContent : " resp.code resp.body), net)
    else (GoResult.ok (), net)

/-- Go `updateDeviceLocalDomainAccountCredential`: PUT the encoded credential
to the item endpoint. -/
def updateDeviceLocalDomainAccountCredential (d : CredState) (net : Net) :
    GoResult Unit × Net :=
  let json := prepareDeviceLocalDomainAccountCredentialJSON d false
  let (resp, net) :=
    newRequest ("/devices/" ++ d.device_id ++ "/localdomains/" ++ d.domain_id ++
      "/accounts/" ++ d.account_id ++ "/credentials/" ++ d.id) "PUT"
      (some (WireBody.cred json)) net
  match resp.err with
  | some e => (GoResult.err (Err.transport e), net)
  | none =>
    if resp.code ≠ 200 ∧ resp.code ≠ 204 then
      (GoResult.err
        (Err.apiStatus "api return not OK or NoContent : " resp.code resp.body), net)
    else (GoResult.ok (), net)

/-- Go `deleteDeviceLocalDomainAccountCredential`. -/
def deleteDeviceLocalDomainAccountCredential (d : CredState) (net : Net) :
    GoResult Unit × Net :=
  let (resp, net) :=
    newRequest ("/devices/" ++ d.device_id ++ "/localdomains/" ++ d.domain_id ++
      "/accounts/" ++ d.account_id ++ "/credentials/" ++ d.id) "DELETE" none net
  match resp.err with
  | some e => (GoResult.err (Err.transport e), net)
  | none =>
    if resp.code ≠ 200 ∧ resp.code ≠ 204 then
      (GoResult.err
        (Err.apiStatus "api return not OK or NoContent : " resp.code resp.body), net)
    else (GoResult.ok (), net)

/-- Go `readDeviceLocalDomainAccountCredentialOptions`: GET the credential by
id; 404 yields the zero record with no error. -/
def readDeviceLocalDomainAccountCredentialOptions
    (deviceID localDomainID accountID credentialID : String) (net : Net) :
    GoResult jsonDeviceLocalDomainAccountCredential × Net :=
  let (resp, net) :=
    newRequest ("/devices/" ++ deviceID ++ "/localdomains/" ++ localDomainID ++
      "/accounts/" ++ accountID ++ "/credentials/" ++ credentialID) "GET" none net
  match resp.err with
  | some e => (GoResult.err (Err.transport e), net)
  | none =>
    if resp.code = 404 then (GoResult.ok jsonCredentialZero, net)
    else if resp.code ≠ 200 then
      (GoResult.err (Err.apiStatus "api return not OK : " resp.code resp.body), net)
    else
      match unmarshalCredential resp.body with
      | Except.error e => (GoResult.err (Err.unmarshal e), net)
      | Except.ok result => (GoResult.ok result, net)

/-- Go `fillDeviceLocalDomainAccountCredential`: writes back only `type` and
the computed `public_key`; the secret attributes `password`, `private_key` and
`passphrase` are not written. -/
def fillDeviceLocalDomainAccountCredential (d : CredState)
    (json : jsonDeviceLocalDomainAccountCredential) : CredState :=
  { d with typ := json.Typ, public_key := json.PublicKey }

/-- Go `resourceDeviceLocalDomainAccountCredentialRead`. -/
def resourceDeviceLocalDomainAccountCredentialRead (c : Client) (d : CredState)
    (net : Net) : OpResult CredState :=
  match resourveDeviceLocalDomainAccountCredentialVersionCheck c.bastionAPIVersion with
  | some e => ⟨Status.fail e, d, net⟩
  | none =>
    match readDeviceLocalDomainAccountCredentialOptions
        d.device_id d.domain_id d.account_id d.id net with
    | (GoResult.err e, net) => ⟨Status.fail e, d, net⟩
    | (GoResult.panicked, net) => ⟨Status.panicked, d, net⟩
    | (GoResult.ok cfg, net) =>
      if cfg.ID = "" then ⟨Status.ok, { d with id := "" }, net⟩
      else ⟨Status.ok, fillDeviceLocalDomainAccountCredential d cfg, net⟩

/-- Go `resourceDeviceLocalDomainAccountCredentialCreate`: checks that the
parent device, local domain and account exist, rejects a duplicate credential
type through the Locator, POSTs, re-checks through the Locator, binds the id
and Reads. -/
def resourceDeviceLocalDomainAccountCredentialCreate (c : Client) (d : CredState)
    (net : Net) : OpResult CredState :=
  match resourveDeviceLocalDomainAccountCredentialVersionCheck c.bastionAPIVersion with
  | some e => ⟨Status.fail e, d, net⟩
  | none =>
    match readDeviceOptions d.device_id net with
    | (GoResult.err e, net) => ⟨Status.fail e, d, net⟩
    | (GoResult.panicked, net) => ⟨Status.panicked, d, net⟩
    | (GoResult.ok cfgDevice, net) =>
      if cfgDevice.ID = "" then
        ⟨Status.fail (Err.msg
          ("device with ID " ++ d.device_id ++ " doesn't exists")), d, net⟩
      else
        match readDeviceLocalDomainOptions d.device_id d.domain_id net with
        | (GoResult.err e, net) => ⟨Status.fail e, d, net⟩
        | (GoResult.panicked, net) => ⟨Status.panicked, d, net⟩
        | (GoResult.ok cfgDomain, net) =>
          if cfgDomain.ID = "" then
            ⟨Status.fail (Err.msg
              ("domain_id with ID " ++ d.domain_id ++ " on device_id " ++
               d.device_id ++ " doesn't exists")), d, net⟩
          else
            match readDeviceLocalDomainAccountOptions
                d.device_id d.domain_id d.account_id net with
            | (GoResult.err e, net) => ⟨Status.fail e, d, net⟩
            | (GoResult.panicked, net) => ⟨Status.panicked, d, net⟩
            | (GoResult.ok cfgAccount, net) =>
              if cfgAccount.ID = "" then
                ⟨Status.fail (Err.msg
                  ("account_id with ID " ++ d.account_id ++ " on domain_id " ++
                   d.domain_id ++ ", device_id " ++ d.device_id ++
                   " doesn't exists")), d, net⟩
              else
                match searchResourceDeviceLocalDomainAccountCredential
                    d.device_id d.domain_id d.account_id d.typ net with
                | (GoResult.err e, net) => ⟨Status.fail e, d, net⟩
                | (GoResult.panicked, net) => ⟨Status.panicked, d, net⟩
                | (GoResult.ok (_, ex), net) =>
                  if ex then
                    ⟨Status.fail (Err.msg
                      ("credential tpye " ++ d.typ ++ " on account_id " ++
                       d.account_id ++ ", domain_id " ++ d.domain_id ++
                       ", device_id " ++ d.device_id ++ " already exists")), d, net⟩
                  else
                    match addDeviceLocalDomainAccountCredential d net with
                    | (GoResult.err e, net) => ⟨Status.fail e, d, net⟩
                    | (GoResult.panicked, net) => ⟨Status.panicked, d, net⟩
                    | (GoResult.ok _, net) =>
                      match searchResourceDeviceLocalDomainAccountCredential
                          d.device_id d.domain_id d.account_id d.typ net with
                      | (GoResult.err e, net) => ⟨Status.fail e, d, net⟩
                      | (GoResult.panicked, net) => ⟨Status.panicked, d, net⟩
                      | (GoResult.ok (id, ex), net) =>
                        if ex = false then
                          ⟨Status.fail (Err.msg
                            ("credential tpye " ++ d.typ ++ " on account_id " ++
                             d.account_id ++ ", domain_id " ++ d.domain_id ++
                             ", device_id " ++ d.device_id ++
                             " can't find after POST")), d, net⟩
                        else
                          resourceDeviceLocalDomainAccountCredentialRead c
                            { d with id := id } net

/-- Go `resourceDeviceLocalDomainAccountCredentialUpdate`. -/
def resourceDeviceLocalDomainAccountCredentialUpdate (c : Client) (d : CredState)
    (net : Net) : OpResult CredState :=
  match resourveDeviceLocalDomainAccountCredentialVersionCheck c.bastionAPIVersion with
  | some e => ⟨Status.fail e, d, net⟩
  | none =>
    match updateDeviceLocalDomainAccountCredential d net with
    | (GoResult.err e, net) => ⟨Status.fail e, d, net⟩
    | (GoResult.panicked, net) => ⟨Status.panicked, d, net⟩
    | (GoResult.ok _, net) =>
      resourceDeviceLocalDomainAccountCredentialRead c d net

/-- Go `resourceDeviceLocalDomainAccountCredentialDelete`. -/
def resourceDeviceLocalDomainAccountCredentialDelete (c : Client) (d : CredState)
    (net : Net) : OpResult CredState :=
  match resourveDeviceLocalDomainAccountCredentialVersionCheck c.bastionAPIVersion with
  | some e => ⟨Status.fail e, d, net⟩
  | none =>
    match deleteDeviceLocalDomainAccountCredential d net with
    | (GoResult.err e, net) => ⟨Status.fail e, d, net⟩
    | (GoResult.panicked, net) => ⟨Status.panicked, d, net⟩
    | (GoResult.ok _, net) => ⟨Status.ok, d, net⟩

/-- Go `resourceDeviceLocalDomainAccountCredentialImport`: the import id must
split on `/` into exactly the four segments
`device_id/domain_id/account_id/type` (`strings.Split` is `stringsSplit`);
the arity error message's spelling follows the source. -/
def resourceDeviceLocalDomainAccountCredentialImport (c : Client) (d : CredState)
    (net : Net) : OpResult CredState :=
  match resourveDeviceLocalDomainAccountCredentialVersionCheck c.bastionAPIVersion with
  | some e => ⟨Status.fail e, d, net⟩
  | none =>
    let idSplit := stringsSplit d.id '/'
    if idSplit.length ≠ 4 then
      ⟨Status.fail (Err.msg
        "id msut be <device_id>/<domain_id>/<account_id>/<type>"), d, net⟩
    else
      match searchResourceDeviceLocalDomainAccountCredential
          (idSplit.getD 0 "") (idSplit.getD 1 "") (idSplit.getD 2 "")
          (idSplit.getD 3 "") net with
      | (GoResult.err e, net) => ⟨Status.fail e, d, net⟩
      | (GoResult.panicked, net) => ⟨Status.panicked, d, net⟩
      | (GoResult.ok (id, ex), net) =>
        if ex = false then
          ⟨Status.fail (Err.msg
            ("don't find credential with id " ++ d.id ++
             " (id must be <device_id>/<domain_id>/<account_id>/<type>")), d, net⟩
        else
          match readDeviceLocalDomainAccountCredentialOptions
              (idSplit.getD 0 "") (idSplit.getD 1 "") (idSplit.getD 2 "") id net with
          | (GoResult.err e, net) => ⟨Status.fail e, d, net⟩
          | (GoResult.panicked, net) => ⟨Status.panicked, d, net⟩
          | (GoResult.ok cfg, net) =>
            let d := fillDeviceLocalDomainAccountCredential d cfg
            ⟨Status.ok,
             { d with
               id := id
               device_id := idSplit.getD 0 ""
               domain_id := idSplit.getD 1 ""
               account_id := idSplit.getD 2 "" },
             net⟩

/-- The Terraform local state of the wallix-bastion_externalauth_ldap
resource. -/
structure LdapState where
  id : String
  authentication_name : String
  cn_attribute : String
  host : String
  ldap_base : String
  login_attribute : String
  port : Int
  timeout : Float
  ca_certificate : String
  certificate : String
  description : String
  is_active_directory : Bool
  is_anonymous_access : Bool
  is_protected_user : Bool
  is_ssl : Bool
  is_starttls : Bool
  login : String
  password : String
  private_key : String
  use_primary_auth_domain : Bool

/-- Go `resourveExternalAuthLdapVersionCheck` (the function name's spelling
follows the source). -/
def resourveExternalAuthLdapVersionCheck (version : String) : Option Err :=
  if version = versionValidate3_3 then none
  else some (Err.msg
    ("resource wallix-bastion_externalauth_ldap not validate with api version " ++
     version))

/-- Go `searchResourceExternalAuthLdap`: the ldap Locator.  GETs
`/externalauths/` with the authentication name appended, decodes a list and
scans for the first exact `authentication_name` match. -/
def searchResourceExternalAuthLdap (authenticationName : String) (net : Net) :
    GoResult (String × Bool) × Net :=
  let (resp, net) :=
    newRequest ("/externalauths/" ++ authenticationName) "GET" none net
  match resp.err with
  | some e => (GoResult.err (Err.transport e), net)
  | none =>
    if resp.code ≠ 200 then
      (GoResult.err (Err.apiStatus "api return not OK : " resp.code resp.body), net)
    else
      match unmarshalLdapList resp.body with
      | Except.error e => (GoResult.err (Err.unmarshal e), net)
      | Except.ok results =>
        match results.find? (fun v => v.AuthenticationName == authenticationName) with
        | some v => (GoResult.ok (v.ID, true), net)
        | none => (GoResult.ok ("", false), net)

/-- Go `prepareExternalAuthLdapJSON`: every settable attribute is copied into
the wire record; `Type` is the constant "LDAP". -/
def prepareExternalAuthLdapJSON (d : LdapState) : jsonExternalAuthLdap :=
  { IsActiveDirectory := d.is_active_directory
    IsAnonymousAccess := d.is_anonymous_access
    IsProtectedUser := d.is_protected_user
    IsSSL := d.is_ssl
    IsStartTLS := d.is_starttls
    UsePrimaryAuthDomain := d.use_primary_auth_domain
    Timeout := d.timeout
    ID := ""
    AuthenticationName := d.authentication_name
    CACertificate := d.ca_certificate
    Certificate := d.certificate
    CNAttribute := d.cn_attribute
    Description := d.description
    LDAPBase := d.ldap_base
    Login := d.login
    LoginAttribute := d.login_attribute
    Host := d.host
    Password := d.password
    Port := d.port
    PrivateKey := d.private_key
    Typ := "LDAP" }

/-- Go `addExternalAuthLdap`. -/
def addExternalAuthLdap (d : LdapState) (net : Net) : GoResult Unit × Net :=
  let json := prepareExternalAuthLdapJSON d
  let (resp, net) :=
    newRequest "/externalauths/" "POST" (some (WireBody.ldap json)) net
  match resp.err with
  | some e => (GoResult.err (Err.transport e), net)
  | none =>
    if resp.code ≠ 200 ∧ resp.code ≠ 204 then
      (GoResult.err
        (Err.apiStatus "api return not OK or NoContent : " resp.code resp.body), net)
    else (GoResult.ok (), net)

/-- Go `updateExternalAuthLdap`. -/
def updateExternalAuthLdap (d : LdapState) (net : Net) : GoResult Unit × Net :=
  let json := prepareExternalAuthLdapJSON d
  let (resp, net) :=
    newRequest ("/externalauths/" ++ d.id) "PUT" (some (WireBody.ldap json)) net
  match resp.err with
  | some e => (GoResult.err (Err.transport e), net)
  | none =>
    if resp.code ≠ 200 ∧ resp.code ≠ 204 then
      (GoResult.err
        (Err.apiStatus "api return not OK or NoContent : " resp.code resp.body), net)
    else (GoResult.ok (), net)

/-- Go `deleteExternalAuthLdap`. -/
def deleteExternalAuthLdap (d : LdapState) (net : Net) : GoResult Unit × Net :=
  let (resp, net) := newRequest ("/externalauths/" ++ d.id) "DELETE" none net
  match resp.err with
  | some e => (GoResult.err (Err.transport e), net)
  | none =>
    if resp.code ≠ 200 ∧ resp.code ≠ 204 then
      (GoResult.err
        (Err.apiStatus "api return not OK or NoContent : " resp.code resp.body), net)
    else (GoResult.ok (), net)

/-- Go `readExternalAuthLdapOptions`: GET by id; 404 yields the zero record
with no error. -/
def readExternalAuthLdapOptions (authenticationID : String) (net : Net) :
    GoResult jsonExternalAuthLdap × Net :=
  let (resp, net) := newRequest ("/externalauths/" ++ authenticationID) "GET" none net
  match resp.err with
  | some e => (GoResult.err (Err.transport e), net)
  | none =>
    if resp.code = 404 then (GoResult.ok jsonExternalAuthLdapZero, net)
    else if resp.code ≠ 200 then
      (GoResult.err (Err.apiStatus "api return not OK : " resp.code resp.body), net)
    else
      match unmarshalLdap resp.body with
      | Except.error e => (GoResult.err (Err.unmarshal e), net)
      | Except.ok result => (GoResult.ok result, net)

/-- Go `fillExternalAuthLdap`: writes the response's attributes back into
local state, `private_key` among them; `password` is the one secret attribute
it does not write. -/
def fillExternalAuthLdap (d : LdapState) (json : jsonExternalAuthLdap) :
    LdapState :=
  { d with
    cn_attribute := json.CNAttribute
    host := json.Host
    ldap_base := json.LDAPBase
    login := json.Login
    login_attribute := json.LoginAttribute
    port := json.Port
    timeout := json.Timeout
    ca_certificate := json.CACertificate
    certificate := json.Certificate
    description := json.Description
    is_active_directory := json.IsActiveDirectory
    is_anonymous_access := json.IsAnonymousAccess
    is_protected_user := json.IsProtectedUser
    is_ssl := json.IsSSL
    is_starttls := json.IsStartTLS
    private_key := json.PrivateKey
    use_primary_auth_domain := json.UsePrimaryAuthDomain }

/-- Go `resourceExternalAuthLdapRead`. -/
def resourceExternalAuthLdapRead (c : Client) (d : LdapState) (net : Net) :
    OpResult LdapState :=
  match resourveExternalAuthLdapVersionCheck c.bastionAPIVersion with
  | some e => ⟨Status.fail e, d, net⟩
  | none =>
    match readExternalAuthLdapOptions d.id net with
    | (GoResult.err e, net) => ⟨Status.fail e, d, net⟩
    | (GoResult.panicked, net) => ⟨Status.panicked, d, net⟩
    | (GoResult.ok config, net) =>
      if config.ID = "" then ⟨Status.ok, { d with id := "" }, net⟩
      else ⟨Status.ok, fillExternalAuthLdap d config, net⟩

/-- Go `resourceExternalAuthLdapCreate`: duplicate-identity precondition, the
login+password companion check when anonymous access is disabled, POST,
post-create Locator re-check, then Read. -/
def resourceExternalAuthLdapCreate (c : Client) (d : LdapState) (net : Net) :
    OpResult LdapState :=
  match resourveExternalAuthLdapVersionCheck c.bastionAPIVersion with
  | some e => ⟨Status.fail e, d, net⟩
  | none =>
    match searchResourceExternalAuthLdap d.authentication_name net with
    | (GoResult.err e, net) => ⟨Status.fail e, d, net⟩
    | (GoResult.panicked, net) => ⟨Status.panicked, d, net⟩
    | (GoResult.ok (_, ex), net) =>
      if ex then
        ⟨Status.fail (Err.msg
          ("authentication_name " ++ d.authentication_name ++ " already exists")),
         d, net⟩
      else if ¬ d.is_anonymous_access ∧ (d.login = "" ∨ d.password = "") then
        ⟨Status.fail (Err.msg
          ("missing 'login' and/or 'password' on externalauth_ldap " ++
           d.authentication_name)), d, net⟩
      else
        match addExternalAuthLdap d net with
        | (GoResult.err e, net) => ⟨Status.fail e, d, net⟩
        | (GoResult.panicked, net) => ⟨Status.panicked, d, net⟩
        | (GoResult.ok _, net) =>
          match searchResourceExternalAuthLdap d.authentication_name net with
          | (GoResult.err e, net) => ⟨Status.fail e, d, net⟩
          | (GoResult.panicked, net) => ⟨Status.panicked, d, net⟩
          | (GoResult.ok (id, ex), net) =>
            if ex = false then
              ⟨Status.fail (Err.msg
                ("authentication_name " ++ d.authentication_name ++
                 " can't find after POST")), d, net⟩
            else
              resourceExternalAuthLdapRead c { d with id := id } net

/-- Go `resourceExternalAuthLdapUpdate`. -/
def resourceExternalAuthLdapUpdate (c : Client) (d : LdapState) (net : Net) :
    OpResult LdapState :=
  match resourveExternalAuthLdapVersionCheck c.bastionAPIVersion with
  | some e => ⟨Status.fail e, d, net⟩
  | none =>
    if ¬ d.is_anonymous_access ∧ (d.login = "" ∨ d.password = "") then
      ⟨Status.fail (Err.msg
        ("missing 'login' and/or 'password' on externalauth_ldap " ++
         d.authentication_name)), d, net⟩
    else
      match updateExternalAuthLdap d net with
      | (GoResult.err e, net) => ⟨Status.fail e, d, net⟩
      | (GoResult.panicked, net) => ⟨Status.panicked, d, net⟩
      | (GoResult.ok _, net) => resourceExternalAuthLdapRead c d net

/-- Go `resourceExternalAuthLdapDelete`. -/
def resourceExternalAuthLdapDelete (c : Client) (d : LdapState) (net : Net) :
    OpResult LdapState :=
  match resourveExternalAuthLdapVersionCheck c.bastionAPIVersion with
  | some e => ⟨Status.fail e, d, net⟩
  | none =>
    match deleteExternalAuthLdap d net with
    | (GoResult.err e, net) => ⟨Status.fail e, d, net⟩
    | (GoResult.panicked, net) => ⟨Status.panicked, d, net⟩
    | (GoResult.ok _, net) => ⟨Status.ok, d, net⟩

/-- Go `resourceExternalAuthLdapImport`. -/
def resourceExternalAuthLdapImport (c : Client) (d : LdapState) (net : Net) :
    OpResult LdapState :=
  match resourveExternalAuthLdapVersionCheck c.bastionAPIVersion with
  | some e => ⟨Status.fail e, d, net⟩
  | none =>
    match searchResourceExternalAuthLdap d.id net with
    | (GoResult.err e, net) => ⟨Status.fail e, d, net⟩
    | (GoResult.panicked, net) => ⟨Status.panicked, d, net⟩
    | (GoResult.ok (id, ex), net) =>
      if ex = false then
        ⟨Status.fail (Err.msg
          ("don't find authentication_name with id " ++ d.id ++
           " (id must be <authentication_name>")), d, net⟩
      else
        match readExternalAuthLdapOptions id net with
        | (GoResult.err e, net) => ⟨Status.fail e, d, net⟩
        | (GoResult.panicked, net) => ⟨Status.panicked, d, net⟩
        | (GoResult.ok config, net) =>
          let d := fillExternalAuthLdap d config
          ⟨Status.ok, { d with id := id }, net⟩

/-- The Terraform local state of the wallix-bastion_localpasswordpolicy data
source: `password_policy_name` is the one settable attribute (default
"default"), everything else is computed. -/
structure PolicyState where
  id : String
  password_policy_name : String
  allow_same_user_and_password : Bool
  forbidden_passwords : List String
  last_passwords_to_reject : Int
  max_auth_failures : Int
  password_expiration : Int
  password_min_digit_chars : Int
  password_min_length : Int
  password_min_lower_chars : Int
  password_min_special_chars : Int
  password_min_upper_chars : Int
  password_warning_days : Int
  ssh_key_algos_allowed : List String
  ssh_rsa_min_length : Int
deriving DecidableEq, Repr

/-- Go `dataSourceLocalpasswordpolicyVersionCheck`: accepts any version in
`defaultVersionsValid()`. -/
def dataSourceLocalpasswordpolicyVersionCheck (version : String) : Option Err :=
  if inSlice version defaultVersionsValid then none
  else some (Err.msg
    ("data source wallix-bastion_localpasswordpolicy not available with api version " ++
     version))

/-- Go `readLocalpasswordpolicyOptions`: GETs the filtered policy list; a non-200
status is fatal with status and body, an empty result list is a fatal not-found
error, and otherwise the first element is returned with no check that its
`password_policy_name` equals the requested name. -/
def readLocalpasswordpolicyOptions (passwordPolicyName : String) (net : Net) :
    GoResult jsonLocalpasswordpolicy × Net :=
  let (resp, net) :=
    newRequest ("/localpasswordpolicies/?q=password_policy_name=" ++ passwordPolicyName)
      "GET" none net
  match resp.err with
  | some e => (GoResult.err (Err.transport e), net)
  | none =>
    if resp.code ≠ 200 then
      (GoResult.err (Err.apiStatus "api doesn't return OK: " resp.code resp.body), net)
    else
      match unmarshalPolicyList resp.body with
      | Except.error e => (GoResult.err (Err.unmarshal ("unmarshaling json: " ++ e)), net)
      | Except.ok results =>
        match results with
        | [] =>
          (GoResult.err (Err.msg
            ("password_policy_name " ++ passwordPolicyName ++ " not found")), net)
        | first :: _ => (GoResult.ok first, net)

/-- Go `fillLocalpasswordpolicy`: writes every computed attribute back into
local state. -/
def fillLocalpasswordpolicy (d : PolicyState) (jsonData : jsonLocalpasswordpolicy) :
    PolicyState :=
  { d with
    allow_same_user_and_password := jsonData.AllowSameUserAndPassword
    password_expiration := jsonData.PasswordExpiration
    password_warning_days := jsonData.PasswordWarningDays
    password_min_length := jsonData.PasswordMinLength
    password_min_lower_chars := jsonData.PasswordMinLowerChars
    password_min_upper_chars := jsonData.PasswordMinUpperChars
    password_min_digit_chars := jsonData.PasswordMinDigitChars
    password_min_special_chars := jsonData.PasswordMinSpecialChars
    last_passwords_to_reject := jsonData.LastPasswordsToReject
    max_auth_failures := jsonData.MaxAuthFailures
    ssh_rsa_min_length := jsonData.SSHRsaMinLength
    forbidden_passwords := jsonData.ForbiddenPasswords
    ssh_key_algos_allowed := jsonData.SSHKeyAlgosAllowed }

/-- Go `dataSourceLocalpasswordpolicyRead`. -/
def dataSourceLocalpasswordpolicyRead (c : Client) (d : PolicyState) (net : Net) :
    OpResult PolicyState :=
  match dataSourceLocalpasswordpolicyVersionCheck c.bastionAPIVersion with
  | some e => ⟨Status.fail e, d, net⟩
  | none =>
    match readLocalpasswordpolicyOptions d.password_policy_name net with
    | (GoResult.err e, net) => ⟨Status.fail e, d, net⟩
    | (GoResult.panicked, net) => ⟨Status.panicked, d, net⟩
    | (GoResult.ok cfg, net) =>
      let d := fillLocalpasswordpolicy d cfg
      ⟨Status.ok, { d with id := cfg.ID }, net⟩

/-- A concrete valid application state whose optional `global_domains` set is
empty. -/
def appState0 : AppState :=
  { id := "", application_name := "app1", connection_policy := "RDP"
    paths := [{ target := "tgt", program := "prog", working_dir := "" }]
    target := "tgt@dom", description := "", global_domains := []
    parameters := "", local_domains := [] }

/-- A concrete valid application state whose `global_domains` set is
non-empty. -/
def appState1 : AppState := { appState0 with global_domains := ["dom1"] }

/-- The wire record `prepareApplicationJSON` produces for `appState0`. -/
def appState0Wire : jsonApplication :=
  { ID := "", ApplicationName := "app1", ConnectionPolicy := "RDP"
    Description := "", Parameters := "", Target := "tgt@dom"
    GlobalDomains := []
    Paths := [{ Target := "tgt", Program := "prog", WorkingDir := "" }]
    LocalDomains := none }

theorem prepare_appState0_eq :
    prepareApplicationJSON appState0 = some appState0Wire := rfl

theorem prepare_appState1_eq : prepareApplicationJSON appState1 = none := rfl

/-- The codec round-trip property claimed for the application resource: the
encoded record decodes back, reproducing every declared settable field. -/
def appRoundTripClaim (x : AppState) : Prop :=
  ∃ j y, prepareApplicationJSON x = some j ∧ fillApplication x j = some y ∧
    y.application_name = x.application_name ∧
    y.connection_policy = x.connection_policy ∧
    y.paths = x.paths ∧
    y.target = x.target ∧
    y.description = x.description ∧
    y.global_domains = x.global_domains ∧
    y.parameters = x.parameters

/-- C1 counterexample: the round trip `fillApplication ∘ prepareApplicationJSON`
produces no state at all.  At `appState0` the encoder succeeds but leaves
`LocalDomains` nil, so the decoder dereferences a nil pointer and panics; at
`appState1` (non-empty `global_domains`) the encoder itself panics on its
`[]interface{}` type assertion. -/
theorem appRoundTripClaim_false :
    ¬ appRoundTripClaim appState0 ∧ ¬ appRoundTripClaim appState1 := by
  constructor
  · rintro ⟨j, y, hj, hy, -⟩
    have hjw : some appState0Wire = some j := prepare_appState0_eq.symm.trans hj
    injection hjw with hjw
    subst hjw
    rw [show fillApplication appState0 appState0Wire = none from rfl] at hy
    exact Option.noConfusion hy
  · rintro ⟨j, y, hj, -⟩
    have := prepare_appState1_eq.symm.trans hj
    exact Option.noConfusion this

/-- The amended round-trip property: for a state whose `global_domains` set is
empty (so that the encoder completes), decoding the encoded record with its
`local_domains` field made present reproduces every declared settable field. -/
def appRoundTripAmended (x : AppState)
    (ld : List jsonApplicationLocalDomain) : Prop :=
  ∃ j, prepareApplicationJSON x = some j ∧
    ∃ y, fillApplication x { j with LocalDomains := some ld } = some y ∧
      y.application_name = x.application_name ∧
      y.connection_policy = x.connection_policy ∧
      y.paths = x.paths ∧
      y.target = x.target ∧
      y.description = x.description ∧
      y.global_domains = x.global_domains ∧
      y.parameters = x.parameters

theorem appPath_wire_roundTrip (l : List AppPath) :
    (l.map (fun p =>
      ({ Target := p.target, Program := p.program
         WorkingDir := p.working_dir } : jsonApplicationPath))).map
      (fun v =>
        ({ target := v.Target, program := v.Program
           working_dir := v.WorkingDir } : AppPath)) = l := by
  induction l with
  | nil => rfl
  | cons a l ih => simp [ih]

/-- C1 (amended): for every valid application state with an empty
`global_domains` set, and any response that extends the encoded record with a
present `local_domains` list, the decode step reproduces every declared
settable field. -/
theorem application_roundTrip_amended (x : AppState)
    (ld : List jsonApplicationLocalDomain) (hgd : x.global_domains = []) :
    appRoundTripAmended x ld := by
  refine ⟨?_, ?_, ?_⟩
  · exact
      { ID := "", ApplicationName := x.application_name
        ConnectionPolicy := x.connection_policy
        Description := x.description, Parameters := x.parameters
        Target := x.target, GlobalDomains := []
        Paths := x.paths.map (fun p =>
          { Target := p.target, Program := p.program, WorkingDir := p.working_dir })
        LocalDomains := none }
  · simp [prepareApplicationJSON, AppState.getGlobalDomains, TFValue.setList, hgd]
  · refine ⟨_, rfl, rfl, rfl, ?_, rfl, rfl, ?_, rfl⟩
    · exact appPath_wire_roundTrip x.paths
    · exact hgd.symm

/-- C1 witness: the amended round trip at the concrete state `appState0`. -/
theorem application_roundTrip_amended_witness :
    appState0.global_domains = [] ∧ appRoundTripAmended appState0 [] :=
  ⟨rfl, application_roundTrip_amended appState0 [] rfl⟩

/-- C4: evaluating `prepareApplicationJSON` at concrete states.  With an empty
`global_domains` set the encoded record carries the explicit empty sequence, as
the spec demands; with the non-empty set `["dom1"]` the function panics on the
`d.Get("global_domains").([]interface{})` type assertion (a `*schema.Set` is
not a `[]interface{}`) instead of copying the element, contradicting the
spec's "copies every settable field". -/
theorem prepareApplicationJSON_globalDomains_bug :
    (∃ j, prepareApplicationJSON appState0 = some j ∧ j.GlobalDomains = []) ∧
    prepareApplicationJSON appState1 = none :=
  ⟨⟨appState0Wire, prepare_appState0_eq, rfl⟩, prepare_appState1_eq⟩

/-- A concrete application GET response without the optional `local_domains`
field (nil pointer after unmarshalling). -/
def jsonAppNoLocalDomains : jsonApplication :=
  { jsonApplicationZero with ApplicationName := "app1", ID := "42" }

/-- C9 counterexample: on a response whose `local_domains` field is absent,
`fillApplication` does not complete — it dereferences the nil `LocalDomains`
pointer, a run-time panic. -/
theorem fillApplication_nil_localDomains_panics :
    fillApplication appState0 jsonAppNoLocalDomains = none := rfl

/-- C9 (amended): `fillApplication` completes without panicking on every
response in which the `local_domains` field is present; when the field is
absent (nil pointer) it panics. -/
theorem fillApplication_total_when_localDomains_present
    (d : AppState) (j : jsonApplication)
    (ld : List jsonApplicationLocalDomain) (h : j.LocalDomains = some ld) :
    (fillApplication d j).isSome := by
  simp [fillApplication, h]

/-- C9 witness: a response with an empty but present `local_domains` list
decodes without panicking. -/
theorem fillApplication_total_witness :
    ({ jsonAppNoLocalDomains with
       LocalDomains := some [] } : jsonApplication).LocalDomains = some [] ∧
    (fillApplication appState0
      { jsonAppNoLocalDomains with LocalDomains := some [] }).isSome :=
  ⟨rfl, fillApplication_total_when_localDomains_present _ _ [] rfl⟩

/-- A concrete ldap state holding a locally configured private key. -/
def ldapState0 : LdapState :=
  { id := "7", authentication_name := "ldap1", cn_attribute := "cn"
    host := "ldap.example.com", ldap_base := "dc=example,dc=com"
    login_attribute := "uid", port := 636, timeout := 30.0
    ca_certificate := "", certificate := "", description := ""
    is_active_directory := false, is_anonymous_access := false
    is_protected_user := false, is_ssl := true, is_starttls := false
    login := "admin", password := "hunter2", private_key := "SECRETKEY"
    use_primary_auth_domain := false }

/-- A concrete appliance response for that ldap entry: the appliance never
returns secrets, so its `private_key` field is the empty string. -/
def ldapJson0 : jsonExternalAuthLdap :=
  { jsonExternalAuthLdapZero with ID := "7", AuthenticationName := "ldap1" }

/-- C3 counterexample: `fillExternalAuthLdap` does write the secret
`private_key` attribute back into local state, overwriting the locally held
value with the empty string the appliance returned. -/
theorem fillExternalAuthLdap_overwrites_private_key :
    (fillExternalAuthLdap ldapState0 ldapJson0).private_key ≠
      ldapState0.private_key := by
  intro h
  rw [show (fillExternalAuthLdap ldapState0 ldapJson0).private_key = "" from rfl,
      show ldapState0.private_key = "SECRETKEY" from rfl] at h
  exact absurd h (by decide)

/-- C3 (amended): the credential resource's fill step writes none of the
secret attributes `password`, `private_key`, `passphrase` back into local
state, and the externalauth_ldap fill step does not write `password`; but the
externalauth_ldap fill step does write `private_key` from the response (see
the counterexample). -/
theorem fill_preserves_secret_fields
    (d : CredState) (j : jsonDeviceLocalDomainAccountCredential)
    (e : LdapState) (k : jsonExternalAuthLdap) :
    (fillDeviceLocalDomainAccountCredential d j).password = d.password ∧
    (fillDeviceLocalDomainAccountCredential d j).private_key = d.private_key ∧
    (fillDeviceLocalDomainAccountCredential d j).passphrase = d.passphrase ∧
    (fillExternalAuthLdap e k).password = e.password :=
  ⟨rfl, rfl, rfl, rfl⟩

/-- A client connected at the version the 3.3-validated resources accept. -/
def clientOK : Client := ⟨"v3.3"⟩

/-- C7: on the application resource, a Read whose GET-by-id answers 404 ends
with no error and the stored id cleared (the entity is absent); a Read whose
GET answers any non-200, non-404 status ends with a fatal error carrying that
status code and the raw response body. -/
theorem applicationRead_notFound_and_badStatus :
    (∀ (c : Client) (d : AppState) (net : Net) (r : Resp) (rest : List Resp),
      c.bastionAPIVersion = versionValidate3_3 →
      net.replies = r :: rest → r.err = none → r.code = 404 →
      (resourceApplicationRead c d net).status = Status.ok ∧
      (resourceApplicationRead c d net).state.id = "") ∧
    (∀ (c : Client) (d : AppState) (net : Net) (r : Resp) (rest : List Resp),
      c.bastionAPIVersion = versionValidate3_3 →
      net.replies = r :: rest → r.err = none → r.code ≠ 200 → r.code ≠ 404 →
      (resourceApplicationRead c d net).status =
        Status.fail (Err.apiStatus "api doesn't return OK : " r.code r.body)) := by
  constructor
  · intro c d net r rest hv hr he hc
    constructor <;>
      simp [resourceApplicationRead, resourceApplicationVersionCheck,
        readApplicationOptions, newRequest, hv, hr, he, hc, jsonApplicationZero]
  · intro c d net r rest hv hr he h200 h404
    simp [resourceApplicationRead, resourceApplicationVersionCheck,
      readApplicationOptions, newRequest, hv, hr, he, h200, h404]

/-- C7 witness: concrete 404 and 500 responses. -/
theorem applicationRead_notFound_and_badStatus_witness :
    ((resourceApplicationRead clientOK appState0
        ⟨[⟨RespBody.raw "", 404, none⟩], []⟩).status = Status.ok ∧
     (resourceApplicationRead clientOK appState0
        ⟨[⟨RespBody.raw "", 404, none⟩], []⟩).state.id = "") ∧
    (resourceApplicationRead clientOK appState0
        ⟨[⟨RespBody.raw "oops", 500, none⟩], []⟩).status =
      Status.fail (Err.apiStatus "api doesn't return OK : " 500 (RespBody.raw "oops")) :=
  ⟨applicationRead_notFound_and_badStatus.1 clientOK appState0
      ⟨[⟨RespBody.raw "", 404, none⟩], []⟩ ⟨RespBody.raw "", 404, none⟩ []
      rfl rfl rfl rfl,
   applicationRead_notFound_and_badStatus.2 clientOK appState0
      ⟨[⟨RespBody.raw "oops", 500, none⟩], []⟩ ⟨RespBody.raw "oops", 500, none⟩ []
      rfl rfl rfl (by decide) (by decide)⟩

/-- C8: a credential Import whose id does not split on `/` into exactly four
segments fails with the format error and issues no network call (the
transport state is untouched). -/
theorem credentialImport_arity_check (c : Client) (d : CredState) (net : Net)
    (hv : c.bastionAPIVersion = versionValidate3_3)
    (hlen : (stringsSplit d.id '/').length ≠ 4) :
    (resourceDeviceLocalDomainAccountCredentialImport c d net).status =
      Status.fail (Err.msg "id msut be <device_id>/<domain_id>/<account_id>/<type>") ∧
    (resourceDeviceLocalDomainAccountCredentialImport c d net).net = net := by
  constructor <;>
    simp [resourceDeviceLocalDomainAccountCredentialImport,
      resourveDeviceLocalDomainAccountCredentialVersionCheck, hv, hlen]

/-- A concrete credential state whose id has only three segments. -/
def credStateBadId : CredState :=
  { id := "dev1/dom2/acc3", device_id := "", domain_id := "", account_id := ""
    typ := "password", passphrase := "", password := "pw", private_key := ""
    public_key := "" }

/-- C8 witness: a three-segment import id. -/
theorem credentialImport_arity_check_witness :
    clientOK.bastionAPIVersion = versionValidate3_3 ∧
    (stringsSplit credStateBadId.id '/').length ≠ 4 ∧
    ((resourceDeviceLocalDomainAccountCredentialImport clientOK credStateBadId
        ⟨[], []⟩).status =
      Status.fail (Err.msg "id msut be <device_id>/<domain_id>/<account_id>/<type>") ∧
     (resourceDeviceLocalDomainAccountCredentialImport clientOK credStateBadId
        ⟨[], []⟩).net = ⟨[], []⟩) :=
  ⟨rfl, by decide,
   credentialImport_arity_check clientOK credStateBadId ⟨[], []⟩ rfl (by decide)⟩

/-- C10: the localpasswordpolicy data-source lookup fails with a not-found
error when the filtered list query yields zero results, while the application
Locator treats an empty list as not-found without error; on a non-empty result
list the lookup returns exactly the first element, with no check that its
`password_policy_name` equals the requested name. -/
theorem localpasswordpolicy_lookup_firstResult :
    (∀ (name : String) (net : Net) (r : Resp) (rest : List Resp),
      net.replies = r :: rest → r.err = none → r.code = 200 →
      r.body = RespBody.policies [] →
      (readLocalpasswordpolicyOptions name net).1 =
        GoResult.err (Err.msg ("password_policy_name " ++ name ++ " not found"))) ∧
    (∀ (name : String) (net : Net) (r : Resp) (rest : List Resp)
        (p : jsonLocalpasswordpolicy) (ps : List jsonLocalpasswordpolicy),
      net.replies = r :: rest → r.err = none → r.code = 200 →
      r.body = RespBody.policies (p :: ps) →
      (readLocalpasswordpolicyOptions name net).1 = GoResult.ok p) ∧
    (∀ (applicationName : String) (net : Net) (r : Resp) (rest : List Resp),
      net.replies = r :: rest → r.err = none → r.code = 200 →
      r.body = RespBody.apps [] →
      (searchResourceApplication applicationName net).1 =
        GoResult.ok ("", false)) := by
  refine ⟨?_, ?_, ?_⟩
  · intro name net r rest hr he hc hb
    simp [readLocalpasswordpolicyOptions, newRequest, unmarshalPolicyList,
      hr, he, hc, hb]
  · intro name net r rest p ps hr he hc hb
    simp [readLocalpasswordpolicyOptions, newRequest, unmarshalPolicyList,
      hr, he, hc, hb]
  · intro applicationName net r rest hr he hc hb
    simp [searchResourceApplication, newRequest, unmarshalApplicationList,
      hr, he, hc, hb]

/-- A concrete policy record whose name differs from the requested one. -/
def policyOther : jsonLocalpasswordpolicy :=
  { AllowSameUserAndPassword := false, ID := "pp1"
    PasswordPolicyName := "other", PasswordExpiration := 0
    PasswordWarningDays := 0, PasswordMinLength := 8
    PasswordMinLowerChars := 1, PasswordMinUpperChars := 1
    PasswordMinDigitChars := 1, PasswordMinSpecialChars := 1
    LastPasswordsToReject := 3, MaxAuthFailures := 5, SSHRsaMinLength := 2048
    ForbiddenPasswords := [], SSHKeyAlgosAllowed := [] }

/-- C10 witness: an empty result list errors; a result list headed by a policy
named "other" is accepted verbatim for the request "default"; the application
Locator returns not-found without error on an empty list. -/
theorem localpasswordpolicy_lookup_firstResult_witness :
    (readLocalpasswordpolicyOptions "default"
        ⟨[⟨RespBody.policies [], 200, none⟩], []⟩).1 =
      GoResult.err (Err.msg "password_policy_name default not found") ∧
    (readLocalpasswordpolicyOptions "default"
        ⟨[⟨RespBody.policies [policyOther], 200, none⟩], []⟩).1 =
      GoResult.ok policyOther ∧
    (searchResourceApplication "app1"
        ⟨[⟨RespBody.apps [], 200, none⟩], []⟩).1 = GoResult.ok ("", false) :=
  ⟨localpasswordpolicy_lookup_firstResult.1 "default"
      ⟨[⟨RespBody.policies [], 200, none⟩], []⟩ ⟨RespBody.policies [], 200, none⟩ []
      rfl rfl rfl rfl,
   localpasswordpolicy_lookup_firstResult.2.1 "default"
      ⟨[⟨RespBody.policies [policyOther], 200, none⟩], []⟩
      ⟨RespBody.policies [policyOther], 200, none⟩ [] policyOther []
      rfl rfl rfl rfl,
   localpasswordpolicy_lookup_firstResult.2.2 "app1"
      ⟨[⟨RespBody.apps [], 200, none⟩], []⟩ ⟨RespBody.apps [], 200, none⟩ []
      rfl rfl rfl rfl⟩

/-- The request the application Locator issues. -/
def appSearchRequest : Request :=
  ⟨"/applications/?fields=application_name,id&limit=-1", "GET", none⟩

/-- The request `readDeviceOptions` issues. -/
def deviceGetRequest (deviceID : String) : Request :=
  ⟨"/devices/" ++ deviceID, "GET", none⟩

/-- The request `readDeviceLocalDomainOptions` issues. -/
def domainGetRequest (deviceID domainID : String) : Request :=
  ⟨"/devices/" ++ deviceID ++ "/localdomains/" ++ domainID, "GET", none⟩

/-- The request `readDeviceLocalDomainAccountOptions` issues. -/
def accountGetRequest (deviceID domainID accountID : String) : Request :=
  ⟨"/devices/" ++ deviceID ++ "/localdomains/" ++ domainID ++ "/accounts/" ++
   accountID, "GET", none⟩

/-- The request the credential Locator issues. -/
def credSearchRequest (deviceID domainID accountID : String) : Request :=
  ⟨"/devices/" ++ deviceID ++ "/localdomains/" ++ domainID ++ "/accounts/" ++
   accountID ++ "/credentials/", "GET", none⟩

/-- C6: when the initial Locator query reports the identity key as already
existing, Create fails with the "already exists" error having issued only GET
requests and no POST: on the application resource the one Locator GET, on the
credential resource the three parent-existence GETs and the Locator GET. -/
theorem create_rejects_duplicate_identity :
    (∀ (c : Client) (d : AppState) (net : Net) (r : Resp) (rest : List Resp)
        (results : List jsonApplication) (v : jsonApplication),
      c.bastionAPIVersion = versionValidate3_3 →
      net.replies = r :: rest → r.err = none → r.code = 200 →
      r.body = RespBody.apps results →
      results.find? (fun a => a.ApplicationName == d.application_name) = some v →
      (resourceApplicationCreate c d net).status =
        Status.fail (Err.msg
          ("application_name " ++ d.application_name ++ " already exists")) ∧
      (resourceApplicationCreate c d net).net.sent =
        net.sent ++ [appSearchRequest]) ∧
    (∀ (c : Client) (d : CredState) (net : Net) (r1 r2 r3 r4 : Resp)
        (rest : List Resp) (dev dom acc : String)
        (results : List jsonDeviceLocalDomainAccountCredential)
        (v : jsonDeviceLocalDomainAccountCredential),
      c.bastionAPIVersion = versionValidate3_3 →
      net.replies = r1 :: r2 :: r3 :: r4 :: rest →
      r1.err = none → r1.code = 200 → r1.body = RespBody.deviceRec ⟨dev⟩ →
      dev ≠ "" →
      r2.err = none → r2.code = 200 → r2.body = RespBody.domainRec ⟨dom⟩ →
      dom ≠ "" →
      r3.err = none → r3.code = 200 → r3.body = RespBody.accountRec ⟨acc⟩ →
      acc ≠ "" →
      r4.err = none → r4.code = 200 → r4.body = RespBody.creds results →
      results.find? (fun w => w.Typ == d.typ) = some v →
      (resourceDeviceLocalDomainAccountCredentialCreate c d net).status =
        Status.fail (Err.msg
          ("credential tpye " ++ d.typ ++ " on account_id " ++ d.account_id ++
           ", domain_id " ++ d.domain_id ++ ", device_id " ++ d.device_id ++
           " already exists")) ∧
      (resourceDeviceLocalDomainAccountCredentialCreate c d net).net.sent =
        net.sent ++
          [deviceGetRequest d.device_id,
           domainGetRequest d.device_id d.domain_id,
           accountGetRequest d.device_id d.domain_id d.account_id,
           credSearchRequest d.device_id d.domain_id d.account_id]) := by
  constructor
  · intro c d net r rest results v hv hr he hc hb hfind
    constructor <;>
      simp [resourceApplicationCreate, resourceApplicationVersionCheck,
        searchResourceApplication, newRequest, unmarshalApplicationList,
        appSearchRequest, hv, hr, he, hc, hb, hfind]
  · intro c d net r1 r2 r3 r4 rest dev dom acc results v hv hr
      he1 hc1 hb1 hdev he2 hc2 hb2 hdom he3 hc3 hb3 hacc he4 hc4 hb4 hfind
    constructor <;>
      simp [resourceDeviceLocalDomainAccountCredentialCreate,
        resourveDeviceLocalDomainAccountCredentialVersionCheck,
        readDeviceOptions, readDeviceLocalDomainOptions,
        readDeviceLocalDomainAccountOptions,
        searchResourceDeviceLocalDomainAccountCredential,
        newRequest, unmarshalCredentialList,
        deviceGetRequest, domainGetRequest, accountGetRequest, credSearchRequest,
        hv, hr, he1, hc1, hb1, hdev, he2, hc2, hb2, hdom,
        he3, hc3, hb3, hacc, he4, hc4, hb4, hfind]

/-- A concrete duplicate application listing. -/
def appJsonDup : jsonApplication :=
  { jsonApplicationZero with ApplicationName := "app1", ID := "42" }

/-- A concrete duplicate credential listing. -/
def credJsonDup : jsonDeviceLocalDomainAccountCredential :=
  { jsonCredentialZero with ID := "99", Typ := "password" }

/-- A concrete credential state whose parents exist on the appliance. -/
def credState1 : CredState :=
  { id := "", device_id := "d1", domain_id := "l1", account_id := "a1"
    typ := "password", passphrase := "", password := "pw", private_key := ""
    public_key := "" }

/-- C6 witness: concrete duplicate-identity Create attempts on both
resources. -/
theorem create_rejects_duplicate_identity_witness :
    ((resourceApplicationCreate clientOK appState0
        ⟨[⟨RespBody.apps [appJsonDup], 200, none⟩], []⟩).status =
      Status.fail (Err.msg "application_name app1 already exists") ∧
     (resourceApplicationCreate clientOK appState0
        ⟨[⟨RespBody.apps [appJsonDup], 200, none⟩], []⟩).net.sent =
      [appSearchRequest]) ∧
    ((resourceDeviceLocalDomainAccountCredentialCreate clientOK credState1
        ⟨[⟨RespBody.deviceRec ⟨"d1"⟩, 200, none⟩,
          ⟨RespBody.domainRec ⟨"l1"⟩, 200, none⟩,
          ⟨RespBody.accountRec ⟨"a1"⟩, 200, none⟩,
          ⟨RespBody.creds [credJsonDup], 200, none⟩], []⟩).status =
      Status.fail (Err.msg
        "credential tpye password on account_id a1, domain_id l1, device_id d1 already exists") ∧
     (resourceDeviceLocalDomainAccountCredentialCreate clientOK credState1
        ⟨[⟨RespBody.deviceRec ⟨"d1"⟩, 200, none⟩,
          ⟨RespBody.domainRec ⟨"l1"⟩, 200, none⟩,
          ⟨RespBody.accountRec ⟨"a1"⟩, 200, none⟩,
          ⟨RespBody.creds [credJsonDup], 200, none⟩], []⟩).net.sent =
      [deviceGetRequest "d1", domainGetRequest "d1" "l1",
       accountGetRequest "d1" "l1" "a1", credSearchRequest "d1" "l1" "a1"]) :=
  ⟨create_rejects_duplicate_identity.1 clientOK appState0
      ⟨[⟨RespBody.apps [appJsonDup], 200, none⟩], []⟩
      ⟨RespBody.apps [appJsonDup], 200, none⟩ [] [appJsonDup] appJsonDup
      rfl rfl rfl rfl rfl (by decide),
   create_rejects_duplicate_identity.2 clientOK credState1
      ⟨[⟨RespBody.deviceRec ⟨"d1"⟩, 200, none⟩,
        ⟨RespBody.domainRec ⟨"l1"⟩, 200, none⟩,
        ⟨RespBody.accountRec ⟨"a1"⟩, 200, none⟩,
        ⟨RespBody.creds [credJsonDup], 200, none⟩], []⟩
      ⟨RespBody.deviceRec ⟨"d1"⟩, 200, none⟩
      ⟨RespBody.domainRec ⟨"l1"⟩, 200, none⟩
      ⟨RespBody.accountRec ⟨"a1"⟩, 200, none⟩
      ⟨RespBody.creds [credJsonDup], 200, none⟩
      [] "d1" "l1" "a1" [credJsonDup] credJsonDup
      rfl rfl rfl rfl rfl (by decide) rfl rfl rfl (by decide)
      rfl rfl rfl (by decide) rfl rfl rfl (by decide)⟩

/-- C5: when Create's POST succeeds but the immediately following Locator
re-query still reports the identity key as not found, Create fails with the
"can't find after POST" error and leaves the local state (its id included)
unchanged — it never ends successfully with an empty id. -/
theorem create_fails_when_not_found_after_post :
    (∀ (c : Client) (d : AppState) (net : Net) (r1 r2 r3 : Resp)
        (rest : List Resp) (results1 results2 : List jsonApplication),
      c.bastionAPIVersion = versionValidate3_3 →
      d.global_domains = [] →
      net.replies = r1 :: r2 :: r3 :: rest →
      r1.err = none → r1.code = 200 → r1.body = RespBody.apps results1 →
      results1.find? (fun a => a.ApplicationName == d.application_name) = none →
      r2.err = none → (r2.code = 200 ∨ r2.code = 204) →
      r3.err = none → r3.code = 200 → r3.body = RespBody.apps results2 →
      results2.find? (fun a => a.ApplicationName == d.application_name) = none →
      (resourceApplicationCreate c d net).status =
        Status.fail (Err.msg
          ("application_name " ++ d.application_name ++ " can't find after POST")) ∧
      (resourceApplicationCreate c d net).state = d) ∧
    (∀ (c : Client) (d : CredState) (net : Net) (r1 r2 r3 r4 r5 r6 : Resp)
        (rest : List Resp) (dev dom acc : String)
        (results4 results6 : List jsonDeviceLocalDomainAccountCredential),
      c.bastionAPIVersion = versionValidate3_3 →
      net.replies = r1 :: r2 :: r3 :: r4 :: r5 :: r6 :: rest →
      r1.err = none → r1.code = 200 → r1.body = RespBody.deviceRec ⟨dev⟩ →
      dev ≠ "" →
      r2.err = none → r2.code = 200 → r2.body = RespBody.domainRec ⟨dom⟩ →
      dom ≠ "" →
      r3.err = none → r3.code = 200 → r3.body = RespBody.accountRec ⟨acc⟩ →
      acc ≠ "" →
      r4.err = none → r4.code = 200 → r4.body = RespBody.creds results4 →
      results4.find? (fun w => w.Typ == d.typ) = none →
      r5.err = none → (r5.code = 200 ∨ r5.code = 204) →
      r6.err = none → r6.code = 200 → r6.body = RespBody.creds results6 →
      results6.find? (fun w => w.Typ == d.typ) = none →
      (resourceDeviceLocalDomainAccountCredentialCreate c d net).status =
        Status.fail (Err.msg
          ("credential tpye " ++ d.typ ++ " on account_id " ++ d.account_id ++
           ", domain_id " ++ d.domain_id ++ ", device_id " ++ d.device_id ++
           " can't find after POST")) ∧
      (resourceDeviceLocalDomainAccountCredentialCreate c d net).state = d) := by
  constructor
  · intro c d net r1 r2 r3 rest results1 results2 hv hgd hr
      he1 hc1 hb1 hf1 he2 hp he3 hc3 hb3 hf3
    rcases hp with hp | hp <;> constructor <;>
      simp [resourceApplicationCreate, resourceApplicationVersionCheck,
        searchResourceApplication, addApplication, prepareApplicationJSON,
        AppState.getGlobalDomains, TFValue.setList,
        newRequest, unmarshalApplicationList,
        hv, hgd, hr, he1, hc1, hb1, hf1, he2, hp, he3, hc3, hb3, hf3]
  · intro c d net r1 r2 r3 r4 r5 r6 rest dev dom acc results4 results6 hv hr
      he1 hc1 hb1 hdev he2 hc2 hb2 hdom he3 hc3 hb3 hacc
      he4 hc4 hb4 hf4 he5 hp5 he6 hc6 hb6 hf6
    rcases hp5 with hp5 | hp5 <;> constructor <;>
      simp [resourceDeviceLocalDomainAccountCredentialCreate,
        resourveDeviceLocalDomainAccountCredentialVersionCheck,
        readDeviceOptions, readDeviceLocalDomainOptions,
        readDeviceLocalDomainAccountOptions,
        searchResourceDeviceLocalDomainAccountCredential,
        addDeviceLocalDomainAccountCredential,
        newRequest, unmarshalCredentialList,
        hv, hr, he1, hc1, hb1, hdev, he2, hc2, hb2, hdom, he3, hc3, hb3, hacc,
        he4, hc4, hb4, hf4, he5, hp5, he6, hc6, hb6, hf6]

/-- C5 witness: a POST acknowledged with 204 whose Locator re-query still
reports not-found, on both resources. -/
theorem create_fails_when_not_found_after_post_witness :
    ((resourceApplicationCreate clientOK appState0
        ⟨[⟨RespBody.apps [], 200, none⟩, ⟨RespBody.raw "", 204, none⟩,
          ⟨RespBody.apps [], 200, none⟩], []⟩).status =
      Status.fail (Err.msg "application_name app1 can't find after POST") ∧
     (resourceApplicationCreate clientOK appState0
        ⟨[⟨RespBody.apps [], 200, none⟩, ⟨RespBody.raw "", 204, none⟩,
          ⟨RespBody.apps [], 200, none⟩], []⟩).state = appState0) ∧
    ((resourceDeviceLocalDomainAccountCredentialCreate clientOK credState1
        ⟨[⟨RespBody.deviceRec ⟨"d1"⟩, 200, none⟩,
          ⟨RespBody.domainRec ⟨"l1"⟩, 200, none⟩,
          ⟨RespBody.accountRec ⟨"a1"⟩, 200, none⟩,
          ⟨RespBody.creds [], 200, none⟩,
          ⟨RespBody.raw "", 204, none⟩,
          ⟨RespBody.creds [], 200, none⟩], []⟩).status =
      Status.fail (Err.msg
        "credential tpye password on account_id a1, domain_id l1, device_id d1 can't find after POST") ∧
     (resourceDeviceLocalDomainAccountCredentialCreate clientOK credState1
        ⟨[⟨RespBody.deviceRec ⟨"d1"⟩, 200, none⟩,
          ⟨RespBody.domainRec ⟨"l1"⟩, 200, none⟩,
          ⟨RespBody.accountRec ⟨"a1"⟩, 200, none⟩,
          ⟨RespBody.creds [], 200, none⟩,
          ⟨RespBody.raw "", 204, none⟩,
          ⟨RespBody.creds [], 200, none⟩], []⟩).state = credState1) :=
  ⟨create_fails_when_not_found_after_post.1 clientOK appState0
      ⟨[⟨RespBody.apps [], 200, none⟩, ⟨RespBody.raw "", 204, none⟩,
        ⟨RespBody.apps [], 200, none⟩], []⟩
      ⟨RespBody.apps [], 200, none⟩ ⟨RespBody.raw "", 204, none⟩
      ⟨RespBody.apps [], 200, none⟩ [] [] []
      rfl rfl rfl rfl rfl rfl rfl rfl (Or.inr rfl) rfl rfl rfl rfl,
   create_fails_when_not_found_after_post.2 clientOK credState1
      ⟨[⟨RespBody.deviceRec ⟨"d1"⟩, 200, none⟩,
        ⟨RespBody.domainRec ⟨"l1"⟩, 200, none⟩,
        ⟨RespBody.accountRec ⟨"a1"⟩, 200, none⟩,
        ⟨RespBody.creds [], 200, none⟩,
        ⟨RespBody.raw "", 204, none⟩,
        ⟨RespBody.creds [], 200, none⟩], []⟩
      ⟨RespBody.deviceRec ⟨"d1"⟩, 200, none⟩
      ⟨RespBody.domainRec ⟨"l1"⟩, 200, none⟩
      ⟨RespBody.accountRec ⟨"a1"⟩, 200, none⟩
      ⟨RespBody.creds [], 200, none⟩
      ⟨RespBody.raw "", 204, none⟩
      ⟨RespBody.creds [], 200, none⟩
      [] "d1" "l1" "a1" [] []
      rfl rfl rfl rfl rfl (by decide) rfl rfl rfl (by decide)
      rfl rfl rfl (by decide) rfl rfl rfl rfl rfl (Or.inr rfl)
      rfl rfl rfl rfl⟩

/-- The version-mismatch error of the application resource. -/
def appVersionErr (version : String) : Err :=
  Err.msg ("resource wallix-bastion_application not validate with api version " ++
    version)

/-- The version-mismatch error of the credential resource (its message names
`wallix-bastion_device_localdomain`, following the source). -/
def credVersionErr (version : String) : Err :=
  Err.msg
    ("resource wallix-bastion_device_localdomain not validate with api version " ++
     version)

/-- The version-mismatch error of the externalauth_ldap resource. -/
def ldapVersionErr (version : String) : Err :=
  Err.msg
    ("resource wallix-bastion_externalauth_ldap not validate with api version " ++
     version)

/-- The version-mismatch error of the localpasswordpolicy data source. -/
def policyVersionErr (version : String) : Err :=
  Err.msg
    ("data source wallix-bastion_localpasswordpolicy not available with api version " ++
     version)

/-- An operation outcome blocked by the Version Gate: the stated error and an
untouched transport state (no request issued, no response consumed). -/
def gateBlocked {σ : Type} (res : OpResult σ) (e : Err) (net : Net) : Prop :=
  res.status = Status.fail e ∧ res.net = net

/-- Every entry point of the three embedded resources (whose accepted set is
the one version `versionValidate3_3`), blocked with its version-mismatch error
and no transport activity. -/
def VersionGateRejectsResources (c : Client) (dApp : AppState)
    (dCred : CredState) (dLdap : LdapState) (net : Net) : Prop :=
  gateBlocked (resourceApplicationCreate c dApp net)
    (appVersionErr c.bastionAPIVersion) net ∧
  gateBlocked (resourceApplicationRead c dApp net)
    (appVersionErr c.bastionAPIVersion) net ∧
  gateBlocked (resourceApplicationUpdate c dApp net)
    (appVersionErr c.bastionAPIVersion) net ∧
  gateBlocked (resourceApplicationDelete c dApp net)
    (appVersionErr c.bastionAPIVersion) net ∧
  gateBlocked (resourceApplicationImport c dApp net)
    (appVersionErr c.bastionAPIVersion) net ∧
  gateBlocked (resourceDeviceLocalDomainAccountCredentialCreate c dCred net)
    (credVersionErr c.bastionAPIVersion) net ∧
  gateBlocked (resourceDeviceLocalDomainAccountCredentialRead c dCred net)
    (credVersionErr c.bastionAPIVersion) net ∧
  gateBlocked (resourceDeviceLocalDomainAccountCredentialUpdate c dCred net)
    (credVersionErr c.bastionAPIVersion) net ∧
  gateBlocked (resourceDeviceLocalDomainAccountCredentialDelete c dCred net)
    (credVersionErr c.bastionAPIVersion) net ∧
  gateBlocked (resourceDeviceLocalDomainAccountCredentialImport c dCred net)
    (credVersionErr c.bastionAPIVersion) net ∧
  gateBlocked (resourceExternalAuthLdapCreate c dLdap net)
    (ldapVersionErr c.bastionAPIVersion) net ∧
  gateBlocked (resourceExternalAuthLdapRead c dLdap net)
    (ldapVersionErr c.bastionAPIVersion) net ∧
  gateBlocked (resourceExternalAuthLdapUpdate c dLdap net)
    (ldapVersionErr c.bastionAPIVersion) net ∧
  gateBlocked (resourceExternalAuthLdapDelete c dLdap net)
    (ldapVersionErr c.bastionAPIVersion) net ∧
  gateBlocked (resourceExternalAuthLdapImport c dLdap net)
    (ldapVersionErr c.bastionAPIVersion) net

/-- The localpasswordpolicy data source's entry point (whose accepted set is
`defaultVersionsValid`), blocked with its version-mismatch error and no
transport activity. -/
def VersionGateRejectsDataSource (c : Client) (dPol : PolicyState)
    (net : Net) : Prop :=
  gateBlocked (dataSourceLocalpasswordpolicyRead c dPol net)
    (policyVersionErr c.bastionAPIVersion) net

/-- C2 (amended): every operation of each embedded resource or data source,
on a connected version outside that entity's own accepted set — the one
version `versionValidate3_3` for the three resources, the list
`defaultVersionsValid` for the data source — fails before any transport call,
with an error naming the connected version and a resource identifier; the
credential resource's message misnames it as
wallix-bastion_device_localdomain. -/
theorem version_gate_blocks_every_operation :
    (∀ (c : Client) (dApp : AppState) (dCred : CredState) (dLdap : LdapState)
        (net : Net),
      c.bastionAPIVersion ≠ versionValidate3_3 →
      VersionGateRejectsResources c dApp dCred dLdap net) ∧
    (∀ (c : Client) (dPol : PolicyState) (net : Net),
      c.bastionAPIVersion ∉ defaultVersionsValid →
      VersionGateRejectsDataSource c dPol net) := by
  constructor
  · intro c dApp dCred dLdap net hv
    simp [VersionGateRejectsResources, gateBlocked,
      resourceApplicationCreate, resourceApplicationRead,
      resourceApplicationUpdate, resourceApplicationDelete,
      resourceApplicationImport,
      resourceDeviceLocalDomainAccountCredentialCreate,
      resourceDeviceLocalDomainAccountCredentialRead,
      resourceDeviceLocalDomainAccountCredentialUpdate,
      resourceDeviceLocalDomainAccountCredentialDelete,
      resourceDeviceLocalDomainAccountCredentialImport,
      resourceExternalAuthLdapCreate, resourceExternalAuthLdapRead,
      resourceExternalAuthLdapUpdate, resourceExternalAuthLdapDelete,
      resourceExternalAuthLdapImport,
      resourceApplicationVersionCheck,
      resourveDeviceLocalDomainAccountCredentialVersionCheck,
      resourveExternalAuthLdapVersionCheck,
      appVersionErr, credVersionErr, ldapVersionErr, hv]
  · intro c dPol net hvd
    simp only [defaultVersionsValid, List.mem_cons, List.not_mem_nil, or_false,
      not_or] at hvd
    have hpol : inSlice c.bastionAPIVersion defaultVersionsValid = false := by
      simp [inSlice, defaultVersionsValid, hvd.1, hvd.2]
    simp [VersionGateRejectsDataSource, gateBlocked,
      dataSourceLocalpasswordpolicyRead,
      dataSourceLocalpasswordpolicyVersionCheck, policyVersionErr, hpol]

/-- A client connected at a version no embedded resource or data source
accepts. -/
def clientBad : Client := ⟨"v0"⟩

/-- A client connected at "v3.6": accepted by the data source's
`defaultVersionsValid`, rejected by the resources' gate. -/
def clientV36 : Client := ⟨"v3.6"⟩

/-- A concrete localpasswordpolicy data-source state. -/
def policyState0 : PolicyState :=
  { id := "", password_policy_name := "default"
    allow_same_user_and_password := false, forbidden_passwords := []
    last_passwords_to_reject := 0, max_auth_failures := 0
    password_expiration := 0, password_min_digit_chars := 0
    password_min_length := 0, password_min_lower_chars := 0
    password_min_special_chars := 0, password_min_upper_chars := 0
    password_warning_days := 0, ssh_key_algos_allowed := []
    ssh_rsa_min_length := 0 }

/-- C2 witness: the resources' gate blocks all fifteen resource operations at
the concrete version "v3.6" (a version inside the data source's accepted set
but outside the resources'), and the data source's gate blocks its Read at the
concrete version "v0". -/
theorem version_gate_blocks_every_operation_witness :
    (clientV36.bastionAPIVersion ≠ versionValidate3_3 ∧
     VersionGateRejectsResources clientV36 appState0 credState1 ldapState0
       ⟨[], []⟩) ∧
    (clientBad.bastionAPIVersion ∉ defaultVersionsValid ∧
     VersionGateRejectsDataSource clientBad policyState0 ⟨[], []⟩) :=
  ⟨⟨by decide,
    version_gate_blocks_every_operation.1 clientV36 appState0 credState1
      ldapState0 ⟨[], []⟩ (by decide)⟩,
   ⟨by decide,
    version_gate_blocks_every_operation.2 clientBad policyState0 ⟨[], []⟩
      (by decide)⟩⟩

/-- Occurrence of `pat` as a contiguous sublist. -/
def hasSub (pat : List Char) : List Char → Bool
  | [] => pat.isEmpty
  | c :: rest => pat.isPrefixOf (c :: rest) || hasSub pat rest

/-- Occurrence of `pat` as a substring of `s`. -/
def strContainsStr (s pat : String) : Bool := hasSub pat.data s.data

/-- C2 counterexample: a credential operation at the rejected version "v0"
fails with the message "resource wallix-bastion_device_localdomain not
validate with api version v0", which does not contain "account_credential" —
so it does not name the device_localdomain_account_credential resource the
operation belongs to. -/
theorem credential_version_error_misnames_resource :
    (resourceDeviceLocalDomainAccountCredentialCreate clientBad credState1
        ⟨[], []⟩).status =
      Status.fail (Err.msg
        "resource wallix-bastion_device_localdomain not validate with api version v0") ∧
    strContainsStr
      "resource wallix-bastion_device_localdomain not validate with api version v0"
      "account_credential" = false :=
  ⟨rfl, by decide⟩

end Wallix
